import Mathlib

/-!
Verification of the VoyageAI travel-planning pipeline against its
natural-language specification.

The Python source is shallowly embedded: money amounts and scores are
rationals (the code uses floating point only as a carrier for decimal
arithmetic at the scales involved), Python round - which rounds half to
even - is modelled by an explicit half-even rounding function, and the
stateful agents become pure functions on explicit records.
-/

/-! ## Half-even rounding (Python round) -/

/-- Round half to even, the rounding used by Python round: nearest integer,
ties going to the even neighbour. -/
def rhe (q : ℚ) : ℤ :=
  if q - ⌊q⌋ < 1/2 then ⌊q⌋
  else if 1/2 < q - ⌊q⌋ then ⌊q⌋ + 1
  else if ⌊q⌋ % 2 = 0 then ⌊q⌋ else ⌊q⌋ + 1

/-- Python round(x, 2). -/
def round2 (q : ℚ) : ℚ := (rhe (q * 100) : ℚ) / 100

/-- Python round(x, 1). -/
def round1 (q : ℚ) : ℚ := (rhe (q * 10) : ℚ) / 10

theorem floor_le_rhe (q : ℚ) : ⌊q⌋ ≤ rhe q := by
  unfold rhe; split_ifs <;> omega

theorem rhe_le_floor_add_one (q : ℚ) : rhe q ≤ ⌊q⌋ + 1 := by
  unfold rhe; split_ifs <;> omega

theorem rhe_le (q : ℚ) : (rhe q : ℚ) ≤ q + 1/2 := by
  have h1 : (⌊q⌋ : ℚ) ≤ q := Int.floor_le q
  have h2 : q < ⌊q⌋ + 1 := Int.lt_floor_add_one q
  unfold rhe
  split_ifs with a b c <;> push_cast <;> linarith

theorem le_rhe (q : ℚ) : q - 1/2 ≤ (rhe q : ℚ) := by
  have h1 : (⌊q⌋ : ℚ) ≤ q := Int.floor_le q
  have h2 : q < ⌊q⌋ + 1 := Int.lt_floor_add_one q
  unfold rhe
  split_ifs with a b c <;> push_cast <;> linarith

theorem rhe_nonneg {q : ℚ} (h : 0 ≤ q) : 0 ≤ rhe q :=
  le_trans (Int.floor_nonneg.mpr h) (floor_le_rhe q)

theorem rhe_mono {a b : ℚ} (h : a ≤ b) : rhe a ≤ rhe b := by
  have hf : ⌊a⌋ ≤ ⌊b⌋ := Int.floor_le_floor h
  rcases lt_or_eq_of_le hf with hlt | heq
  · have h1 := rhe_le_floor_add_one a
    have h2 := floor_le_rhe b
    omega
  · have ha1 : (⌊a⌋ : ℚ) ≤ a := Int.floor_le a
    have hb2 : b < ⌊b⌋ + 1 := Int.lt_floor_add_one b
    unfold rhe
    rw [← heq]
    split_ifs <;> first | omega | (exfalso; linarith)

theorem rhe_intCast (n : ℤ) : rhe ((n : ℚ)) = n := by
  unfold rhe
  rw [Int.floor_intCast, sub_self]
  norm_num

theorem round2_eval {q : ℚ} {n : ℤ} (h : q * 100 = (n : ℚ)) :
    round2 q = (n : ℚ) / 100 := by
  rw [round2, h, rhe_intCast]

theorem rhe_eq_of_lt_half {q : ℚ} {z : ℤ} (h1 : (z : ℚ) ≤ q) (h2 : q - z < 1/2) :
    rhe q = z := by
  have hfloor : ⌊q⌋ = z := Int.floor_eq_iff.mpr ⟨h1, by linarith⟩
  unfold rhe
  rw [hfloor, if_pos h2]

theorem rhe_eq_of_gt_half {q : ℚ} {z : ℤ} (h1 : 1/2 < q - z) (h2 : q < z + 1) :
    rhe q = z + 1 := by
  have hfloor : ⌊q⌋ = z := Int.floor_eq_iff.mpr ⟨by linarith, by linarith⟩
  unfold rhe
  rw [hfloor, if_neg (by linarith), if_pos h1]

theorem rhe_eq_of_half_odd {q : ℚ} {z : ℤ} (h1 : q - z = 1/2) (h2 : z % 2 = 1) :
    rhe q = z + 1 := by
  have hfloor : ⌊q⌋ = z := Int.floor_eq_iff.mpr ⟨by linarith, by linarith⟩
  unfold rhe
  rw [hfloor, h1, if_neg (by norm_num), if_neg (by norm_num), if_neg (by omega)]

theorem rhe_eq_of_half_even {q : ℚ} {z : ℤ} (h1 : q - z = 1/2) (h2 : z % 2 = 0) :
    rhe q = z := by
  have hfloor : ⌊q⌋ = z := Int.floor_eq_iff.mpr ⟨by linarith, by linarith⟩
  unfold rhe
  rw [hfloor, h1, if_neg (by norm_num), if_neg (by norm_num), if_pos h2]

theorem round2_mono {a b : ℚ} (h : a ≤ b) : round2 a ≤ round2 b := by
  have h1 : rhe (a * 100) ≤ rhe (b * 100) := rhe_mono (by linarith)
  have h2 : ((rhe (a * 100) : ℤ) : ℚ) ≤ ((rhe (b * 100) : ℤ) : ℚ) := by
    exact_mod_cast h1
  unfold round2
  linarith

theorem round2_nonneg {a : ℚ} (h : 0 ≤ a) : 0 ≤ round2 a := by
  have h1 : (0 : ℤ) ≤ rhe (a * 100) := rhe_nonneg (by linarith)
  have h2 : (0 : ℚ) ≤ ((rhe (a * 100) : ℤ) : ℚ) := by exact_mod_cast h1
  unfold round2
  linarith

theorem round2_le (a : ℚ) : round2 a ≤ a + 1/200 := by
  have h1 : (rhe (a * 100) : ℚ) ≤ a * 100 + 1/2 := rhe_le (a * 100)
  unfold round2
  linarith

/-! ## Cost breakdown and the Validator's consistency repair

Embedded from app/schemas/travel.py (CostBreakdown) and
app/agents/validation_agent.py (check 3). -/

structure CostBreakdown where
  flights : ℚ
  accommodation : ℚ
  activities : ℚ
  transport : ℚ
  total : ℚ

/-- Sum of the four category buckets, the expression recomputed by the
Validator (validation_agent.py lines 51-56). -/
def sumCB (cb : CostBreakdown) : ℚ :=
  cb.flights + cb.accommodation + cb.activities + cb.transport

/-- Validator check 3: if the cached total differs from the recomputed sum
by more than 1, overwrite the total with the sum. -/
def validateCost (cb : CostBreakdown) : CostBreakdown :=
  if 1 < |sumCB cb - cb.total| then { cb with total := sumCB cb } else cb

/-- C3: after the Validation stage the cached total_estimated differs from
the sum of the four category buckets by at most 1 unit, for every input
breakdown; and exactly when the difference exceeded 1 the Validator repaired
the total by recomputing it from the categories. -/
theorem validator_total_within_one (cb : CostBreakdown) :
    |sumCB (validateCost cb) - (validateCost cb).total| ≤ 1
    ∧ (validateCost cb).total
      = (if 1 < |sumCB cb - cb.total| then sumCB cb else cb.total) := by
  unfold validateCost
  split_ifs with h
  · refine ⟨?_, rfl⟩
    have e : sumCB { cb with total := sumCB cb } = sumCB cb := rfl
    rw [e]
    simp
  · exact ⟨by linarith [abs_nonneg (sumCB cb - cb.total)], rfl⟩

/-! ## Budget Optimizer

Embedded from app/agents/budget_optimizer_agent.py.  The agent first sets
total_estimated to the rounded bucket sum, then - only when a positive
budget ceiling exists and is exceeded - runs a proportional shrink pass
over the flexibility pool (minimum retainable shares: flights 95 %,
transport 60 %, accommodation 40 %, activities 25 %) and, if still over,
a hard-trim pass over activities, accommodation, transport floored at 20 %
of their current value. -/

/-- BudgetOptimizerAgent._sum: bucket sum rounded to 2 decimals. -/
def optSum (cb : CostBreakdown) : ℚ :=
  round2 (cb.flights + cb.accommodation + cb.activities + cb.transport)

/-- Headroom of one bucket: original minus its minimum retainable share
(budget_optimizer_agent.py lines 67-69). -/
def headroom (v share : ℚ) : ℚ := v - v * share

/-- Proportional reduction of one bucket: applied only when the bucket is in
the flexibility pool, i.e. has positive headroom (lines 70-82). -/
def reduceBucket (v h scale : ℚ) : ℚ :=
  if 0 < h then v - round2 (h * scale) else v

/-- Total headroom of the flexibility pool: only buckets with strictly
positive headroom enter the pool (lines 64-73). -/
def poolSum (cb : CostBreakdown) : ℚ :=
  (if 0 < headroom cb.flights (95/100) then headroom cb.flights (95/100) else 0)
    + (if 0 < headroom cb.transport (60/100) then headroom cb.transport (60/100) else 0)
    + (if 0 < headroom cb.accommodation (40/100) then headroom cb.accommodation (40/100) else 0)
    + (if 0 < headroom cb.activities (25/100) then headroom cb.activities (25/100) else 0)

/-- First (proportional) pass, budget_optimizer_agent.py lines 62-89.
Reads the overshoot from the total field; with an empty pool the pass is
skipped. -/
def pass1 (cb : CostBreakdown) (m : ℚ) : CostBreakdown :=
  if 0 < poolSum cb then
    { cb with
      flights := reduceBucket cb.flights (headroom cb.flights (95/100))
        (min ((cb.total - m) / poolSum cb) 1)
      transport := reduceBucket cb.transport (headroom cb.transport (60/100))
        (min ((cb.total - m) / poolSum cb) 1)
      accommodation := reduceBucket cb.accommodation (headroom cb.accommodation (40/100))
        (min ((cb.total - m) / poolSum cb) 1)
      activities := reduceBucket cb.activities (headroom cb.activities (25/100))
        (min ((cb.total - m) / poolSum cb) 1) }
  else cb

/-- One step of the hard-trim pass (lines 96-106): cut the category down to
at most 20 % of its current value, consuming the remaining overshoot. -/
def trimCat (current remaining : ℚ) : ℚ × ℚ :=
  if remaining ≤ 0 then (current, remaining)
  else
    let cut := min (current - current * (20/100)) remaining
    if 0 < cut then (current - cut, remaining - cut) else (current, remaining)

/-- Second (hard-trim) pass over activities, accommodation, transport in
that order (lines 94-110). -/
def pass2 (cb : CostBreakdown) (m : ℚ) : CostBreakdown :=
  let p1 := trimCat cb.activities (cb.total - m)
  let p2 := trimCat cb.accommodation p1.2
  let p3 := trimCat cb.transport p2.2
  { cb with activities := p1.1, accommodation := p2.1, transport := p3.1 }

/-- Update of the cached total, cb.total_estimated = self._sum(cb)
(lines 50, 91, 110). -/
def setTotal (cb : CostBreakdown) : CostBreakdown := { cb with total := optSum cb }

/-- BudgetOptimizerAgent.run, restricted to its effect on the cost
breakdown (lines 45-112).  A missing or non-positive ceiling, or an
already-within-budget total, skips all fitting. -/
def optimizeBuckets (cb0 : CostBreakdown) (bmax : Option ℚ) : CostBreakdown :=
  match bmax with
  | none => setTotal cb0
  | some m =>
    if 0 < m ∧ m < optSum cb0 then
      if m < optSum (pass1 (setTotal cb0) m) then
        setTotal (pass2 (setTotal (pass1 (setTotal cb0) m)) m)
      else setTotal (pass1 (setTotal cb0) m)
    else setTotal cb0

theorem reduceBucket_le (v h scale : ℚ) (hs : 0 ≤ scale) :
    reduceBucket v h scale ≤ v := by
  unfold reduceBucket
  split_ifs with h1
  · have h2 := round2_nonneg (mul_nonneg h1.le hs)
    linarith
  · exact le_refl v

theorem reduceBucket_flights_floor (v scale : ℚ) (hv : 0 ≤ v) (hs : scale ≤ 1) :
    (95/100) * v - 1/200 ≤ reduceBucket v (headroom v (95/100)) scale := by
  unfold reduceBucket headroom
  split_ifs with h1
  · have h2 := round2_le ((v - v * (95/100)) * scale)
    have h3 : (v - v * (95/100)) * scale ≤ v - v * (95/100) := by
      unfold headroom at h1
      exact mul_le_of_le_one_right h1.le hs
    linarith
  · linarith

theorem pass1_le (cb : CostBreakdown) (m : ℚ) (hover : 0 < cb.total - m) :
    (pass1 cb m).flights ≤ cb.flights
    ∧ (pass1 cb m).transport ≤ cb.transport
    ∧ (pass1 cb m).accommodation ≤ cb.accommodation
    ∧ (pass1 cb m).activities ≤ cb.activities := by
  unfold pass1
  by_cases hpool : 0 < poolSum cb
  · rw [if_pos hpool]
    have hs : (0:ℚ) ≤ min ((cb.total - m) / poolSum cb) 1 :=
      le_of_lt (lt_min (div_pos hover hpool) one_pos)
    exact ⟨reduceBucket_le _ _ _ hs, reduceBucket_le _ _ _ hs,
      reduceBucket_le _ _ _ hs, reduceBucket_le _ _ _ hs⟩
  · rw [if_neg hpool]
    exact ⟨le_refl _, le_refl _, le_refl _, le_refl _⟩

theorem trimCat_le (c r : ℚ) : (trimCat c r).1 ≤ c := by
  unfold trimCat
  dsimp only
  split_ifs with h1 h2
  · exact le_refl c
  · dsimp only
    have h4 : (0:ℚ) ≤ min (c - c * (20/100)) r := le_of_lt h2
    linarith
  · exact le_refl c

theorem pass2_sum_le (cb : CostBreakdown) (m : ℚ) :
    optSum (pass2 cb m) ≤ optSum cb := by
  unfold optSum
  apply round2_mono
  have e : (pass2 cb m).flights = cb.flights := rfl
  have t1 : (pass2 cb m).activities ≤ cb.activities := trimCat_le _ _
  have t2 : (pass2 cb m).accommodation ≤ cb.accommodation := trimCat_le _ _
  have t3 : (pass2 cb m).transport ≤ cb.transport := trimCat_le _ _
  linarith [e.le]

/-- C2 (amended): for any positive ceiling below the pre-optimization total
(and a nonnegative flights bucket), the post-optimization total is at most
the pre-optimization total, and after the first (proportional) pass alone
the flights bucket is at least 95 % of its pre-optimization value minus
1/200 - the per-bucket reduction is rounded to 2 decimals, which can
overshoot the 5 % flights headroom by at most half of one hundredth. -/
theorem setTotal_total (cb : CostBreakdown) : (setTotal cb).total = optSum cb := rfl

theorem optSum_setTotal (cb : CostBreakdown) : optSum (setTotal cb) = optSum cb := rfl

/-- C2 (amended): for any positive ceiling below the pre-optimization total
(and a nonnegative flights bucket), the post-optimization total is at most
the pre-optimization total, and after the first (proportional) pass alone
the flights bucket is at least 95 % of its pre-optimization value minus
1/200 - the per-bucket reduction is rounded to 2 decimals, which can
overshoot the 5 % flights headroom by at most half of one hundredth. -/
theorem optimizer_monotone_flights_floor (cb : CostBreakdown) (m : ℚ)
    (hm : 0 < m) (hover : m < optSum cb) (hf : 0 ≤ cb.flights) :
    (optimizeBuckets cb (some m)).total ≤ optSum cb
    ∧ (95/100) * cb.flights - 1/200 ≤ (pass1 (setTotal cb) m).flights := by
  have hover0 : (0:ℚ) < (setTotal cb).total - m := by
    rw [setTotal_total]; linarith
  have h1 := pass1_le (setTotal cb) m hover0
  have hmono1 : optSum (pass1 (setTotal cb) m) ≤ optSum cb := by
    calc optSum (pass1 (setTotal cb) m)
        ≤ optSum (setTotal cb) := by
          unfold optSum
          apply round2_mono
          obtain ⟨a, b, c, d⟩ := h1
          linarith
      _ = optSum cb := optSum_setTotal cb
  constructor
  · show (optimizeBuckets cb (some m)).total ≤ optSum cb
    simp only [optimizeBuckets]
    rw [if_pos ⟨hm, hover⟩]
    split_ifs with h2
    · rw [setTotal_total]
      calc optSum (pass2 (setTotal (pass1 (setTotal cb) m)) m)
          ≤ optSum (setTotal (pass1 (setTotal cb) m)) := pass2_sum_le _ m
        _ = optSum (pass1 (setTotal cb) m) := optSum_setTotal _
        _ ≤ optSum cb := hmono1
    · rw [setTotal_total]
      exact hmono1
  · unfold pass1
    by_cases hpool : 0 < poolSum (setTotal cb)
    · rw [if_pos hpool]
      exact reduceBucket_flights_floor _ _ hf (min_le_right _ _)
    · rw [if_neg hpool]
      show (95/100) * cb.flights - 1/200 ≤ (setTotal cb).flights
      show (95/100) * cb.flights - 1/200 ≤ cb.flights
      linarith

/-- Cost breakdown used to exhibit the flights rounding dip: flights
100.30, everything else zero. -/
def cbFlights : CostBreakdown := ⟨1003/10, 0, 0, 0, 0⟩

theorem optSum_cbFlights : optSum cbFlights = 1003/10 := by
  show round2 ((1003/10 : ℚ) + 0 + 0 + 0) = 1003/10
  rw [round2_eval (n := 10030) (by norm_num)]
  norm_num

theorem poolSum_cbFlights : poolSum (setTotal cbFlights) = 1003/200 := by
  show poolSum cbFlights = 1003/200
  unfold poolSum cbFlights headroom
  norm_num

/-- C2 counterexample: on the breakdown with flights = 100.30 and a ceiling
of 1, the proportional pass shrinks flights to 100.30 - round2(5.015) =
100.30 - 5.02 = 95.28, strictly below 95 % of 100.30 = 95.285: the claim
that flights never shrink below 95 % of their pre-optimization value after
the first pass is false. -/
theorem flights_floor_counterexample :
    (pass1 (setTotal cbFlights) 1).flights < (95/100) * cbFlights.flights := by
  have hrhe : rhe (1003/2) = 502 := by
    have h := rhe_eq_of_half_odd (q := 1003/2) (z := 501) (by push_cast; norm_num) (by norm_num)
    exact h.trans (by norm_num)
  have hred : round2 ((1003/200 : ℚ) * min (((setTotal cbFlights).total - 1)
      / poolSum (setTotal cbFlights)) 1) = 502/100 := by
    rw [setTotal_total, optSum_cbFlights, poolSum_cbFlights]
    rw [min_eq_right (by norm_num)]
    rw [round2]
    have e : ((1003/200 : ℚ) * 1) * 100 = 1003/2 := by norm_num
    rw [e, hrhe]
    norm_num
  unfold pass1
  rw [if_pos (by rw [poolSum_cbFlights]; norm_num)]
  show reduceBucket (setTotal cbFlights).flights
      (headroom (setTotal cbFlights).flights (95/100))
      (min (((setTotal cbFlights).total - 1) / poolSum (setTotal cbFlights)) 1)
      < (95/100) * cbFlights.flights
  have hfl : (setTotal cbFlights).flights = 1003/10 := rfl
  have hcb : cbFlights.flights = 1003/10 := rfl
  rw [hfl, hcb]
  have hH : headroom (1003/10 : ℚ) (95/100) = 1003/200 := by
    unfold headroom; norm_num
  rw [hH]
  unfold reduceBucket
  rw [if_pos (by norm_num), hred]
  norm_num

/-- C2 witness input: buckets (0, 1000, 0, 0), ceiling 700; the optimizer
runs and both conclusions of the amended theorem hold there. -/
theorem optimizer_monotone_flights_floor_witness :
    (optimizeBuckets ⟨0, 1000, 0, 0, 0⟩ (some 700)).total ≤ optSum ⟨0, 1000, 0, 0, 0⟩
    ∧ (95/100) * (⟨0, 1000, 0, 0, 0⟩ : CostBreakdown).flights - 1/200
      ≤ (pass1 (setTotal ⟨0, 1000, 0, 0, 0⟩) 700).flights :=
  optimizer_monotone_flights_floor ⟨0, 1000, 0, 0, 0⟩ 700 (by norm_num)
    (by
      have e : optSum ⟨0, 1000, 0, 0, 0⟩ = 1000 := by
        show round2 ((0 : ℚ) + 1000 + 0 + 0) = 1000
        rw [round2_eval (n := 100000) (by norm_num)]
        norm_num
      rw [e]; norm_num)
    (le_refl 0)

theorem setTotal_setTotal (cb : CostBreakdown) : setTotal (setTotal cb) = setTotal cb := by
  obtain ⟨f, a, ac, t, tot⟩ := cb
  rfl

/-- C7: the Budget Optimizer is idempotent on within-budget inputs: when the
rounded bucket sum does not exceed the positive ceiling, one run leaves all
four category buckets unchanged, and a second run returns exactly the same
breakdown. -/
theorem optimizer_idempotent_within_budget (cb : CostBreakdown) (m : ℚ)
    (hm : 0 < m) (hle : optSum cb ≤ m) :
    (optimizeBuckets cb (some m)).flights = cb.flights
    ∧ (optimizeBuckets cb (some m)).accommodation = cb.accommodation
    ∧ (optimizeBuckets cb (some m)).activities = cb.activities
    ∧ (optimizeBuckets cb (some m)).transport = cb.transport
    ∧ optimizeBuckets (optimizeBuckets cb (some m)) (some m)
      = optimizeBuckets cb (some m) := by
  have hcond : ¬(0 < m ∧ m < optSum cb) := by
    rintro ⟨_, h⟩
    linarith
  have e1 : optimizeBuckets cb (some m) = setTotal cb := by
    simp only [optimizeBuckets]
    rw [if_neg hcond]
  have e3 : optimizeBuckets (setTotal cb) (some m) = setTotal (setTotal cb) := by
    simp only [optimizeBuckets]
    rw [if_neg]
    rintro ⟨_, h⟩
    rw [optSum_setTotal] at h
    linarith
  rw [e1]
  exact ⟨rfl, rfl, rfl, rfl, by rw [e3, setTotal_setTotal]⟩

/-- C7 witness input: buckets (10, 10, 10, 10), ceiling 100. -/
theorem optimizer_idempotent_within_budget_witness :
    (optimizeBuckets ⟨10, 10, 10, 10, 0⟩ (some 100)).flights
        = (⟨10, 10, 10, 10, 0⟩ : CostBreakdown).flights
    ∧ (optimizeBuckets ⟨10, 10, 10, 10, 0⟩ (some 100)).accommodation
        = (⟨10, 10, 10, 10, 0⟩ : CostBreakdown).accommodation
    ∧ (optimizeBuckets ⟨10, 10, 10, 10, 0⟩ (some 100)).activities
        = (⟨10, 10, 10, 10, 0⟩ : CostBreakdown).activities
    ∧ (optimizeBuckets ⟨10, 10, 10, 10, 0⟩ (some 100)).transport
        = (⟨10, 10, 10, 10, 0⟩ : CostBreakdown).transport
    ∧ optimizeBuckets (optimizeBuckets ⟨10, 10, 10, 10, 0⟩ (some 100)) (some 100)
        = optimizeBuckets ⟨10, 10, 10, 10, 0⟩ (some 100) :=
  optimizer_idempotent_within_budget ⟨10, 10, 10, 10, 0⟩ 100 (by norm_num)
    (by
      have e : optSum ⟨10, 10, 10, 10, 0⟩ = 40 := by
        show round2 ((10 : ℚ) + 10 + 10 + 10) = 40
        rw [round2_eval (n := 4000) (by norm_num)]
        norm_num
      rw [e]; norm_num)

/-! ## Risk Analyzer composite score

Embedded from app/agents/risk_analyzer_agent.py lines 120-156.  The
aggregated inputs (maximum storm probability, maximum rain chance, maximum
normalized temperature extremity over the destinations, and the number of
visa-requiring countries) are taken as arguments; the composite is the
weighted blend of the five 0-10 sub-scores. -/

/-- Budget exposure sub-score (lines 124-137): piecewise linear in the
spend/ceiling ratio, flat 3.0 when no positive ceiling is known.  The
1.0-1.3 segment uses the literal slope 16.7 from the code. -/
def budgetRisk (totalCost budgetMax : ℚ) : ℚ :=
  if 0 < budgetMax then
    if totalCost / budgetMax ≤ 8/10 then 1
    else if totalCost / budgetMax ≤ 1 then 1 + (totalCost / budgetMax - 8/10) * 20
    else if totalCost / budgetMax ≤ 13/10 then 5 + (totalCost / budgetMax - 1) * (167/10)
    else 10
  else 3

/-- Composite risk score (lines 120-156): weighted blend, capped at 10,
rounded to one decimal. -/
def riskScore (maxStorm maxRain maxTempExtreme : ℚ) (visaCount : ℕ)
    (totalCost budgetMax : ℚ) : ℚ :=
  round1 (min
    (min (maxStorm * 50) 10 * (30/100)
      + budgetRisk totalCost budgetMax * (25/100)
      + min ((visaCount : ℚ) * (33/10)) 10 * (20/100)
      + min (maxRain * 15) 10 * (15/100)
      + min (maxTempExtreme * 10) 10 * (10/100)) 10)

/-- Budget exposure as the specification words it, parametrized by the slope
of the 1.0-1.3 segment: the spec's phrase "1.0-1.3 maps linearly to 5-10"
corresponds to slope 50/3, the code to slope 167/10. -/
def specBudgetExposure (slope totalCost budgetMax : ℚ) : ℚ :=
  if 0 < budgetMax then
    if totalCost / budgetMax ≤ 8/10 then 1
    else if totalCost / budgetMax ≤ 1 then 1 + (totalCost / budgetMax - 8/10) * 20
    else if totalCost / budgetMax ≤ 13/10 then 5 + (totalCost / budgetMax - 1) * slope
    else 10
  else 3

/-- Composite risk exactly as the C4 claim words it: weighted sum
0.30 weather + 0.25 budget + 0.20 visa + 0.15 rain + 0.10 temperature with
the budget bucket mapping 1.0-1.3 linearly onto 5-10 (slope 50/3), the
result rounded to one decimal and capped at 10. -/
def specCompositeRisk (maxStorm maxRain maxTempExtreme : ℚ) (visaCount : ℕ)
    (totalCost budgetMax : ℚ) : ℚ :=
  min (round1
    ((30/100) * min (maxStorm * 50) 10
      + (25/100) * specBudgetExposure (50/3) totalCost budgetMax
      + (20/100) * min ((visaCount : ℚ) * (33/10)) 10
      + (15/100) * min (maxRain * 15) 10
      + (10/100) * min (maxTempExtreme * 10) 10)) 10

/-- Composite risk as the claim amended to the code's slope 16.7 for the
1.0-1.3 budget segment (so the budget bucket reaches 10.01 at ratio 1.3). -/
def specCompositeRiskAdjusted (maxStorm maxRain maxTempExtreme : ℚ) (visaCount : ℕ)
    (totalCost budgetMax : ℚ) : ℚ :=
  min (round1
    ((30/100) * min (maxStorm * 50) 10
      + (25/100) * specBudgetExposure (167/10) totalCost budgetMax
      + (20/100) * min ((visaCount : ℚ) * (33/10)) 10
      + (15/100) * min (maxRain * 15) 10
      + (10/100) * min (maxTempExtreme * 10) 10)) 10

theorem round1_eval {q : ℚ} {n : ℤ} (h : q * 10 = (n : ℚ)) :
    round1 q = (n : ℚ) / 10 := by
  rw [round1, h, rhe_intCast]

theorem round1_mono {a b : ℚ} (h : a ≤ b) : round1 a ≤ round1 b := by
  have h1 : rhe (a * 10) ≤ rhe (b * 10) := rhe_mono (by linarith)
  have h2 : ((rhe (a * 10) : ℤ) : ℚ) ≤ ((rhe (b * 10) : ℤ) : ℚ) := by
    exact_mod_cast h1
  unfold round1
  linarith

theorem round1_min_ten (c : ℚ) : round1 (min c 10) = min (round1 c) 10 := by
  have h10 : round1 (10 : ℚ) = 10 := by
    rw [round1_eval (n := 100) (by norm_num)]
    norm_num
  rcases le_total c 10 with h | h
  · rw [min_eq_left h, min_eq_left (by rw [← h10]; exact round1_mono h)]
  · rw [min_eq_right h, min_eq_right (by rw [← h10]; exact round1_mono h), h10]

/-- C4 counterexample: with no storm, rain or visa risk, temperature
extremity 0.0485 and spend/ceiling ratio exactly 1.3, the code computes a
budget bucket of 10.01 (slope 16.7) giving composite 2.551, rounded to 2.6,
while the claim's exact linear 5-to-10 map gives composite 2.5485, rounded
to 2.5: the code does not equal the claimed formula. -/
theorem risk_formula_counterexample :
    riskScore 0 0 (97/2000) 0 (13/10) 1
      ≠ specCompositeRisk 0 0 (97/2000) 0 (13/10) 1 := by
  have e1 : riskScore 0 0 (97/2000) 0 (13/10) 1 = 26/10 := by
    unfold riskScore budgetRisk
    norm_num [min_def]
    rw [round1]
    have e : (2551/1000 : ℚ) * 10 = 2551/100 := by norm_num
    rw [e, rhe_eq_of_gt_half (z := 25) (by norm_num) (by norm_num)]
    norm_num
  have e2 : specCompositeRisk 0 0 (97/2000) 0 (13/10) 1 = 25/10 := by
    unfold specCompositeRisk specBudgetExposure
    norm_num [min_def]
    rw [round1]
    have e : (5097/2000 : ℚ) * 10 = 5097/200 := by norm_num
    rw [e, rhe_eq_of_lt_half (z := 25) (by norm_num) (by norm_num)]
    norm_num
  rw [e1, e2]
  norm_num

/-- C4 (amended): for all aggregated inputs the composite risk score equals
the claimed weighted formula with the 1.0-1.3 budget segment taken at the
code's slope 16.7 instead of the exact linear 5-to-10 map; all other
sub-scores, the weights, the cap at 10 and the one-decimal rounding are as
the claim states. -/
theorem risk_formula_amended (maxStorm maxRain maxTempExtreme : ℚ) (visaCount : ℕ)
    (totalCost budgetMax : ℚ) :
    riskScore maxStorm maxRain maxTempExtreme visaCount totalCost budgetMax
      = specCompositeRiskAdjusted maxStorm maxRain maxTempExtreme visaCount
          totalCost budgetMax := by
  unfold riskScore specCompositeRiskAdjusted
  rw [round1_min_ten]
  have e : min (maxStorm * 50) 10 * (30/100)
      + budgetRisk totalCost budgetMax * (25/100)
      + min ((visaCount : ℚ) * (33/10)) 10 * (20/100)
      + min (maxRain * 15) 10 * (15/100)
      + min (maxTempExtreme * 10) 10 * (10/100)
      = (30/100) * min (maxStorm * 50) 10
      + (25/100) * specBudgetExposure (167/10) totalCost budgetMax
      + (20/100) * min ((visaCount : ℚ) * (33/10)) 10
      + (15/100) * min (maxRain * 15) 10
      + (10/100) * min (maxTempExtreme * 10) 10 := by
    have eb : budgetRisk totalCost budgetMax
        = specBudgetExposure (167/10) totalCost budgetMax := rfl
    rw [eb]
    ring
  rw [e]

/-! ## Itinerary Allocator (Planner)

Embedded from app/agents/planner_agent.py lines 52-80: day allocation across
the destination list, with the arrival/check-in weather-note flag, plus the
Validator checks that touch the itinerary (validation_agent.py checks 1-2).
Text is ASCII, as produced by the pipeline. -/

def isAsciiSpace (c : Char) : Bool :=
  c == ' ' || c == '\t' || c == '\n' || c == '\r'
    || c == Char.ofNat 11 || c == Char.ofNat 12

structure DayIt where
  day : ℕ
  city : String
  activities : List String
  estimatedCost : ℚ
  weatherNote : String

/-- Days allocated to the destination at position idx
(planner_agent.py lines 56-69): base days floored at half the even split
and at 1, plus one extra day for the earliest destinations while the
remainder lasts (the remainder is negative when duration < destinations,
in which case no destination receives an extra day). -/
def cityDays (duration n idx : ℕ) : ℕ :=
  let baseDays := max (duration / n) (max 1 (duration / (n * 2)))
  let cd := baseDays + (if (idx : ℤ) < (duration : ℤ) - (baseDays : ℤ) * (n : ℤ) then 1 else 0)
  if cd < 1 then 1 else cd

/-- The day entries of one destination: day numbers continue the running
counter, the first day of every destination after the first is flagged as
arrival when there are at least two destinations (lines 71-80). -/
def itinDay (city : String) (n idx dayC d : ℕ) : DayIt :=
  { day := dayC + d, city := city, activities := [], estimatedCost := 0,
    weatherNote := if d = 0 ∧ 0 < idx ∧ 1 < n then "Arrival & check-in day" else "" }

def itinBlock (city : String) (n idx dayC k : ℕ) : List DayIt :=
  (List.range k).map (itinDay city n idx dayC)

def buildItin (duration n : ℕ) : List String → ℕ → ℕ → List DayIt
  | [], _, _ => []
  | city :: rest, idx, dayC =>
    itinBlock city n idx dayC (cityDays duration n idx)
      ++ buildItin duration n rest (idx + 1) (dayC + cityDays duration n idx)

/-- destinations = intent.destinations or ['Unknown'] (line 36). -/
def plannerDests (dests : List String) : List String :=
  if dests = [] then ["Unknown"] else dests

/-- PlannerAgent.run day-by-day itinerary: day counter starts at 1. -/
def plannerItinerary (dests : List String) (duration : ℕ) : List DayIt :=
  buildItin duration (plannerDests dests).length (plannerDests dests) 0 1

/-- Validator check 1 helper: keep the first entry for every day number. -/
def dedupDaysGo (seen : List ℕ) : List DayIt → List DayIt
  | [] => []
  | d :: rest =>
    if d.day ∈ seen then dedupDaysGo seen rest
    else d :: dedupDaysGo (d.day :: seen) rest

/-- Validator check 1 (validation_agent.py lines 31-41): rebuild the list
only when day numbers repeat. -/
def validateDedup (l : List DayIt) : List DayIt :=
  if (l.map (fun d => d.day)).Nodup then l else dedupDaysGo [] l

def firstToken (s : String) : String :=
  ⟨(s.data.dropWhile isAsciiSpace).takeWhile (fun c => !isAsciiSpace c)⟩

/-- Validator check 2 (lines 43-47): truncate city names longer than 50
characters to the first word of their 50-character prefix. -/
def truncCity (d : DayIt) : DayIt :=
  if 50 < d.city.length then { d with city := firstToken ⟨d.city.data.take 50⟩ } else d

/-- The Validator checks that rewrite the itinerary, in source order. -/
def validateItinerary (l : List DayIt) : List DayIt :=
  (validateDedup l).map truncCity

/-- Analysis abbreviation: the base days per destination. -/
def allocBase (duration n : ℕ) : ℕ := max (duration / n) (max 1 (duration / (n * 2)))

/-- Analysis abbreviation: how many destinations get one extra day. -/
def allocRem (duration n : ℕ) : ℕ := duration - allocBase duration n * n

theorem cityDaysAux_eq (duration n idx b : ℕ) (hb : 1 ≤ b) :
    (if (b + if (idx : ℤ) < (duration : ℤ) - (b : ℤ) * (n : ℤ) then 1 else 0) < 1 then 1
      else b + if (idx : ℤ) < (duration : ℤ) - (b : ℤ) * (n : ℤ) then 1 else 0)
    = b + (if idx < duration - b * n then 1 else 0) := by
  have e : ((duration : ℤ) - (b : ℤ) * (n : ℤ)) = ((duration : ℤ) - ((b * n : ℕ) : ℤ)) := by
    push_cast
    ring
  rw [e]
  split_ifs <;> omega

theorem cityDays_eq (duration n idx : ℕ) :
    cityDays duration n idx
      = allocBase duration n + (if idx < allocRem duration n then 1 else 0) := by
  show (if (allocBase duration n
        + if (idx : ℤ) < (duration : ℤ) - (allocBase duration n : ℤ) * (n : ℤ) then 1 else 0) < 1
      then 1
      else allocBase duration n
        + if (idx : ℤ) < (duration : ℤ) - (allocBase duration n : ℤ) * (n : ℤ) then 1 else 0)
    = allocBase duration n + (if idx < allocRem duration n then 1 else 0)
  rw [show allocRem duration n = duration - allocBase duration n * n from rfl]
  exact cityDaysAux_eq duration n idx (allocBase duration n)
    (le_trans (le_max_left 1 _) (le_max_right _ _))

theorem itinBlock_length (city : String) (n idx dayC k : ℕ) :
    (itinBlock city n idx dayC k).length = k := by
  simp [itinBlock]

theorem itinBlock_days (city : String) (n idx dayC k : ℕ) :
    (itinBlock city n idx dayC k).map (fun d => d.day) = List.range' dayC k := by
  unfold itinBlock
  rw [List.map_map]
  have e : ((fun d => d.day) ∘ itinDay city n idx dayC) = (fun d => dayC + d) := rfl
  rw [e, ← List.range'_eq_map_range]

theorem buildItin_days (duration n : ℕ) (l : List String) : ∀ (idx dayC : ℕ),
    (buildItin duration n l idx dayC).map (fun d => d.day)
      = List.range' dayC (buildItin duration n l idx dayC).length := by
  induction l with
  | nil => intro idx dayC; rfl
  | cons city rest ih =>
    intro idx dayC
    show ((itinBlock city n idx dayC (cityDays duration n idx))
        ++ buildItin duration n rest (idx + 1) (dayC + cityDays duration n idx)).map _
      = List.range' dayC ((itinBlock city n idx dayC (cityDays duration n idx))
        ++ buildItin duration n rest (idx + 1) (dayC + cityDays duration n idx)).length
    rw [List.map_append, List.length_append, itinBlock_days, itinBlock_length,
      ih (idx + 1) (dayC + cityDays duration n idx)]
    rw [Nat.add_comm (cityDays duration n idx) _]
    exact List.range'_append_1 dayC (cityDays duration n idx) _

theorem buildItin_length (duration n : ℕ) (l : List String) : ∀ (idx dayC : ℕ),
    (buildItin duration n l idx dayC).length
      = allocBase duration n * l.length
        + (min (allocRem duration n) (idx + l.length) - min (allocRem duration n) idx) := by
  induction l with
  | nil => intro idx dayC; simp [buildItin]
  | cons city rest ih =>
    intro idx dayC
    show ((itinBlock city n idx dayC (cityDays duration n idx))
        ++ buildItin duration n rest (idx + 1) (dayC + cityDays duration n idx)).length = _
    rw [List.length_append, itinBlock_length, ih (idx + 1) (dayC + cityDays duration n idx),
      cityDays_eq, List.length_cons, Nat.mul_succ]
    split_ifs with h <;> omega

theorem allocBase_of_le (duration n : ℕ) (hn : 0 < n) (hd : n ≤ duration) :
    allocBase duration n = duration / n := by
  unfold allocBase
  have h3 : duration / (n * 2) ≤ duration / n :=
    Nat.div_le_div_left (by omega) hn
  have h4 : 1 ≤ duration / n := (Nat.one_le_div_iff hn).mpr hd
  omega

theorem allocRem_of_le (duration n : ℕ) (hn : 0 < n) (hd : n ≤ duration) :
    allocRem duration n = duration % n := by
  unfold allocRem
  rw [allocBase_of_le duration n hn hd]
  have h5 := Nat.div_add_mod duration n
  have h6 : duration / n * n = n * (duration / n) := Nat.mul_comm _ _
  omega

theorem allocBase_of_lt (duration n : ℕ) (hd : duration < n) :
    allocBase duration n = 1 := by
  unfold allocBase
  have h3 : duration / n = 0 := Nat.div_eq_of_lt hd
  have h4 : duration / (n * 2) = 0 := Nat.div_eq_of_lt (by omega)
  omega

theorem allocRem_of_lt (duration n : ℕ) (hn : 0 < n) (hd : duration < n) :
    allocRem duration n = 0 := by
  unfold allocRem
  rw [allocBase_of_lt duration n hd]
  omega

theorem plannerItinerary_length (dests : List String) (duration : ℕ)
    (h2 : dests ≠ []) :
    (plannerItinerary dests duration).length = max duration dests.length := by
  unfold plannerItinerary plannerDests
  rw [if_neg h2, buildItin_length]
  have hn : 0 < dests.length := List.length_pos.mpr h2
  rcases le_or_lt dests.length duration with hcase | hcase
  · rw [allocBase_of_le duration dests.length hn hcase,
      allocRem_of_le duration dests.length hn hcase]
    have h5 := Nat.div_add_mod duration dests.length
    have h6 : duration % dests.length < dests.length := Nat.mod_lt _ hn
    have h7 : duration / dests.length * dests.length
        = dests.length * (duration / dests.length) := Nat.mul_comm _ _
    omega
  · rw [allocBase_of_lt duration dests.length hcase,
      allocRem_of_lt duration dests.length hn hcase]
    omega

theorem truncCity_day (d : DayIt) : (truncCity d).day = d.day := by
  unfold truncCity
  split_ifs <;> rfl

theorem validateItinerary_days (l : List DayIt)
    (h : (l.map (fun d => d.day)).Nodup) :
    (validateItinerary l).map (fun d => d.day) = l.map (fun d => d.day) := by
  unfold validateItinerary validateDedup
  rw [if_pos h, List.map_map]
  have e : ((fun d => d.day) ∘ truncCity) = (fun d => d.day) := by
    funext d
    exact truncCity_day d
  rw [e]

/-- C1 (amended): the Allocator produces exactly
max(duration_days, number of destinations) DayItinerary entries - equal to
duration_days exactly when duration_days is at least the destination count -
and after the Validation stage the day numbers form the contiguous sequence
1..N with no gaps or duplicates, where N is the number of entries. -/
theorem planner_day_allocation (dests : List String) (duration : ℕ)
    (h1 : 1 ≤ duration) (h2 : dests ≠ []) :
    (plannerItinerary dests duration).length = max duration dests.length
    ∧ (validateItinerary (plannerItinerary dests duration)).map (fun d => d.day)
      = List.range' 1 (plannerItinerary dests duration).length := by
  refine ⟨plannerItinerary_length dests duration h2, ?_⟩
  have hdays : (plannerItinerary dests duration).map (fun d => d.day)
      = List.range' 1 (plannerItinerary dests duration).length :=
    buildItin_days duration (plannerDests dests).length (plannerDests dests) 0 1
  rw [validateItinerary_days _ (by rw [hdays]; exact List.nodup_range' 1 _), hdays]

/-- C1 counterexample: with duration_days = 1 and two destinations the
Allocator produces 2 entries, not duration_days = 1. -/
theorem planner_day_count_counterexample :
    (plannerItinerary ["Tokyo", "Kyoto"] 1).length ≠ 1 := by decide

/-- C1 witness input: duration 6, destinations Tokyo and Kyoto. -/
theorem planner_day_allocation_witness :
    (plannerItinerary ["Tokyo", "Kyoto"] 6).length
        = max 6 (["Tokyo", "Kyoto"] : List String).length
    ∧ (validateItinerary (plannerItinerary ["Tokyo", "Kyoto"] 6)).map (fun d => d.day)
      = List.range' 1 (plannerItinerary ["Tokyo", "Kyoto"] 6).length :=
  planner_day_allocation ["Tokyo", "Kyoto"] 6 (by norm_num) (by simp)

/-! ## Hotel Selector night distribution

Embedded from app/agents/hotel_intelligence_agent.py lines 30-35 and
app/agents/budget_optimizer_agent.py lines 160-166 (the re-propagation uses
the same distribution). -/

/-- Nights booked for the destination at position idx
(hotel_intelligence_agent.py lines 30-35). -/
def hotelNights (duration n idx : ℕ) : ℕ :=
  duration / n + (if idx < duration % n then 1 else 0)

/-- Nights assumed by BudgetOptimizerAgent._propagate_accommodation
(budget_optimizer_agent.py lines 163-166). -/
def propagateNights (duration n idx : ℕ) : ℕ :=
  duration / n + (if idx < duration % n then 1 else 0)

/-- C6 counterexample: duration 1 with two destinations - the Allocator
assigns the second destination 1 day but the Hotel Selector books 0 nights
there, so the two day-distribution computations are not equivalent for all
duration and destination-count values. -/
theorem nights_mismatch_counterexample :
    hotelNights 1 2 1 ≠ cityDays 1 2 1 := by decide

/-- C6 (amended): whenever the trip lasts at least as many days as there
are destinations, the nights the Hotel Selector books per destination equal
the days the Allocator assigns that destination, and the Budget Optimizer's
re-propagation distribution coincides with the Hotel Selector's. -/
theorem nights_match_days (duration n idx : ℕ) (hn : 0 < n) (hd : n ≤ duration) :
    hotelNights duration n idx = cityDays duration n idx
    ∧ propagateNights duration n idx = hotelNights duration n idx := by
  refine ⟨?_, rfl⟩
  rw [cityDays_eq, allocBase_of_le duration n hn hd, allocRem_of_le duration n hn hd]
  rfl

/-- C6 witness input: duration 6, two destinations, second destination. -/
theorem nights_match_days_witness :
    hotelNights 6 2 1 = cityDays 6 2 1
    ∧ propagateNights 6 2 1 = hotelNights 6 2 1 :=
  nights_match_days 6 2 1 (by norm_num) (by norm_num)

/-! ## Experience Curator daily selection

Embedded from app/agents/experience_agent.py lines 62-120: the per-day
activity-count decision and the two selection passes (rotation over unused
items, then refill by rank allowing repeats).  Activities are represented by
their names; ranked is the interest/score-sorted pool for the day's city. -/

/-- The code's relaxation test, experience_agent.py line 72:
trip_type in ('relaxation', 'honeymoon').  UserIntent.trip_type is a
List[str] (schemas/travel.py line 31), and a Python list never compares
equal to a string, so the membership test is constantly false. -/
def isRelaxation (tripType : List String) : Bool := false

/-- Number of activities planned for the day (lines 69-79). -/
def nPerDay (isArrivalDay : Bool) (tripType : List String) (poolLen : ℕ) : ℕ :=
  if isArrivalDay then 2
  else if isRelaxation tripType then 2
  else if poolLen ≤ 4 then min 3 poolLen else 3

/-- First pass (lines 86-94): walk the rotation window from the per-city
offset, keeping activities whose names were not used on earlier days. -/
def chooseFirstPass (ranked used : List String) (offset n : ℕ) : List String :=
  (List.range ranked.length).foldl
    (fun chosen i =>
      if n ≤ chosen.length then chosen
      else
        if ranked.getD ((offset + i) % ranked.length) "" ∈ used then chosen
        else chosen ++ [ranked.getD ((offset + i) % ranked.length) ""])
    []

/-- Second pass (lines 96-105): if the rotation could not supply enough
unused items, refill from the ranked pool with repeats allowed, skipping
names already chosen today. -/
def chooseSecondPass (ranked chosen0 : List String) (n : ℕ) : List String :=
  ranked.foldl
    (fun chosen a =>
      if n ≤ chosen.length then chosen
      else if a ∈ chosen then chosen else chosen ++ [a]) chosen0

/-- Activities selected for one day (lines 69-105). -/
def chooseForDay (ranked used : List String) (offset : ℕ)
    (isArrivalDay : Bool) (tripType : List String) : List String :=
  chooseSecondPass ranked
    (chooseFirstPass ranked used offset (nPerDay isArrivalDay tripType ranked.length))
    (nPerDay isArrivalDay tripType ranked.length)

/-- C5: evaluation at the failing input.  A relaxation-style trip
(trip_type = ['relaxation']) on a non-arrival day with a fresh pool of four
activities receives 3 activities, not the 2 the claim and the code's own
relaxation branch intend: the test trip_type in ('relaxation', 'honeymoon')
compares a list against strings and is never true. -/
theorem relaxation_day_count_eval :
    (chooseForDay ["Museum Walk", "Old Town Tour", "River Cruise", "Food Market"]
      [] 0 false ["relaxation"]).length = 3 := by decide

/-! ## Carbon Estimator distance lookup

Embedded from app/agents/carbon_agent.py: the curated distance and
coordinate tables and the _get_distance fallback chain (lines 125-140).
The haversine great-circle function is transcendental, so it is taken as a
parameter; none of the claims depend on its value. -/

def asciiLowerChar (c : Char) : Char :=
  if 'A' ≤ c ∧ c ≤ 'Z' then Char.ofNat (c.toNat + 32) else c

/-- Python str.lower for the ASCII city names the pipeline handles. -/
def pyLower (s : String) : String := ⟨s.data.map asciiLowerChar⟩

/-- Python str.strip. -/
def pyStrip (s : String) : String :=
  ⟨((s.data.dropWhile isAsciiSpace).reverse.dropWhile isAsciiSpace).reverse⟩

/-- The curated bilateral distance table _DISTANCE_KM (carbon_agent.py lines 27-86). -/
def distTable : List (String × List (String × ℚ)) := [
  ("delhi", [("tokyo", 5840), ("kyoto", 5720), ("osaka", 5700), ("paris", 6600), ("london", 6720), ("dubai", 2200), ("singapore", 4150), ("bangkok", 2920), ("bali", 5300), ("goa", 1550), ("jaipur", 270), ("mumbai", 1150), ("bangalore", 1750), ("kolkata", 1310), ("kuala lumpur", 4300), ("new york", 11750), ("rome", 5900), ("istanbul", 4550), ("sydney", 10400), ("chennai", 1760), ("hyderabad", 1260), ("amsterdam", 6350), ("berlin", 5800), ("vienna", 5500), ("zurich", 6100), ("cairo", 4500), ("nairobi", 5300), ("hong kong", 3780), ("seoul", 4660)]),
  ("mumbai", [("tokyo", 6740), ("delhi", 1150), ("goa", 450), ("dubai", 1930), ("singapore", 3920), ("bangkok", 3550), ("london", 7200), ("paris", 6600), ("jaipur", 950), ("bangalore", 840), ("bali", 5600), ("kuala lumpur", 4070), ("kolkata", 1650), ("chennai", 1030), ("hyderabad", 620), ("new york", 12560), ("rome", 6300), ("hong kong", 4470), ("sydney", 10100)]),
  ("bangalore", [("delhi", 1750), ("mumbai", 840), ("chennai", 290), ("kolkata", 1560), ("goa", 520), ("hyderabad", 500), ("singapore", 3230), ("dubai", 2690), ("london", 8100), ("paris", 7850), ("bangkok", 3140)]),
  ("kolkata", [("delhi", 1310), ("mumbai", 1650), ("bangkok", 1880), ("singapore", 3120), ("hong kong", 2920), ("kuala lumpur", 2840), ("tokyo", 5140)]),
  ("london", [("paris", 340), ("amsterdam", 360), ("berlin", 930), ("rome", 1430), ("istanbul", 2510), ("dubai", 5500), ("new york", 5570), ("tokyo", 9560), ("sydney", 17000), ("singapore", 10850), ("bangkok", 9540), ("delhi", 6720), ("mumbai", 7200), ("hong kong", 9640), ("cairo", 3520)]),
  ("paris", [("london", 340), ("amsterdam", 430), ("berlin", 880), ("rome", 1100), ("istanbul", 2240), ("dubai", 5250), ("new york", 5840), ("tokyo", 9710), ("delhi", 6600), ("mumbai", 6600), ("barcelona", 830), ("madrid", 1050), ("zurich", 490), ("vienna", 1030)]),
  ("tokyo", [("osaka", 400), ("kyoto", 375), ("seoul", 1160), ("hong kong", 2900), ("singapore", 5310), ("bangkok", 4600), ("sydney", 7820), ("new york", 10840), ("london", 9560), ("paris", 9710), ("delhi", 5840), ("mumbai", 6740)]),
  ("new york", [("london", 5570), ("paris", 5840), ("tokyo", 10840), ("delhi", 11750), ("dubai", 11020), ("sydney", 16000), ("rome", 6880), ("berlin", 6380)]),
  ("dubai", [("delhi", 2200), ("mumbai", 1930), ("london", 5500), ("paris", 5250), ("singapore", 5850), ("bangkok", 4900), ("tokyo", 7950), ("sydney", 12050), ("istanbul", 3000), ("cairo", 2400), ("nairobi", 3350)]),
  ("singapore", [("bangkok", 1420), ("kuala lumpur", 320), ("bali", 2600), ("hong kong", 2580), ("tokyo", 5310), ("sydney", 6290), ("delhi", 4150), ("mumbai", 3920), ("london", 10850), ("dubai", 5850)])
]

/-- The curated coordinate table _COORDS (carbon_agent.py lines 89-110). -/
def coordsTable : List (String × (ℚ × ℚ)) := [
  ("delhi", (28.6139, 77.209)),
  ("mumbai", (19.076, 72.8777)),
  ("bangalore", (12.9716, 77.5946)),
  ("chennai", (13.0827, 80.2707)),
  ("kolkata", (22.5726, 88.3639)),
  ("hyderabad", (17.385, 78.4867)),
  ("jaipur", (26.9124, 75.7873)),
  ("goa", (15.2993, 74.124)),
  ("varanasi", (25.3176, 82.9739)),
  ("kochi", (9.9312, 76.2673)),
  ("tokyo", (35.6762, 139.6503)),
  ("osaka", (34.6937, 135.5023)),
  ("kyoto", (35.0116, 135.7681)),
  ("seoul", (37.5665, 126.978)),
  ("hong kong", (22.3193, 114.1694)),
  ("singapore", (1.3521, 103.8198)),
  ("bangkok", (13.7563, 100.5018)),
  ("bali", (-8.3405, 115.092)),
  ("kuala lumpur", (3.139, 101.6869)),
  ("london", (51.5074, -0.1278)),
  ("paris", (48.8566, 2.3522)),
  ("amsterdam", (52.3676, 4.9041)),
  ("berlin", (52.52, 13.405)),
  ("rome", (41.9028, 12.4964)),
  ("barcelona", (41.3874, 2.1686)),
  ("madrid", (40.4168, -3.7038)),
  ("vienna", (48.2082, 16.3738)),
  ("prague", (50.0755, 14.4378)),
  ("zurich", (47.3769, 8.5417)),
  ("istanbul", (41.0082, 28.9784)),
  ("cairo", (30.0444, 31.2357)),
  ("nairobi", (-1.2921, 36.8219)),
  ("dubai", (25.2048, 55.2708)),
  ("new york", (40.7128, -74.006)),
  ("sydney", (-33.8688, 151.2093)),
  ("san francisco", (37.7749, -122.4194)),
  ("los angeles", (34.0522, -118.2437))
]

/-- Lookup in the nested distance dictionary: o in _DISTANCE_KM and
d in _DISTANCE_KM[o]. -/
def lookupDist (o d : String) : Option ℚ :=
  (distTable.lookup o).bind (fun row => row.lookup d)

/-- carbon_agent.py _get_distance: same-city short circuit, curated table in
both directions, haversine when both cities have coordinates (rounded to 0
decimals), else the fixed 3500 km default. -/
def getDistance (hav : (ℚ × ℚ) → (ℚ × ℚ) → ℚ) (origin dest : String) : ℚ :=
  let o := pyStrip (pyLower origin)
  let d := pyStrip (pyLower dest)
  if o = d then 0
  else
    match lookupDist o d with
    | some v => v
    | none =>
      match lookupDist d o with
      | some v => v
      | none =>
        match coordsTable.lookup o, coordsTable.lookup d with
        | some co, some cd => (rhe (hav co cd) : ℚ)
        | _, _ => 3500

/-- C9 counterexample: the pair (Atlantis, Atlantis) has no entry in the
curated distance table in either direction and no coordinates, yet
_get_distance returns 0, not 3500: the same-city short circuit fires before
the fallback, refuting the claim for equal-name pairs. -/
theorem distance_same_city_counterexample :
    lookupDist "atlantis" "atlantis" = none
    ∧ coordsTable.lookup "atlantis" = none
    ∧ getDistance (fun _ _ => 0) "Atlantis" "Atlantis" = 0 := by
  refine ⟨by decide, by decide, rfl⟩

/-- C9 (amended): for every pair of city names that are distinct after
lower-casing and stripping, with no curated distance in either direction
and at least one of the two absent from the coordinate table, the distance
lookup returns exactly 3500 km, whatever the haversine function computes. -/
theorem distance_default_fallback (hav : (ℚ × ℚ) → (ℚ × ℚ) → ℚ)
    (origin dest : String)
    (hne : pyStrip (pyLower origin) ≠ pyStrip (pyLower dest))
    (h1 : lookupDist (pyStrip (pyLower origin)) (pyStrip (pyLower dest)) = none)
    (h2 : lookupDist (pyStrip (pyLower dest)) (pyStrip (pyLower origin)) = none)
    (h3 : coordsTable.lookup (pyStrip (pyLower origin)) = none
      ∨ coordsTable.lookup (pyStrip (pyLower dest)) = none) :
    getDistance hav origin dest = 3500 := by
  unfold getDistance
  rw [if_neg hne, h1, h2]
  rcases h3 with h3 | h3
  · rw [h3]
  · cases ho : coordsTable.lookup (pyStrip (pyLower origin)) with
    | none => rfl
    | some co => rw [h3]

/-- C9 witness input: Atlantis to Paris - Paris is in both tables but
Atlantis in neither, so the default 3500 km applies. -/
theorem distance_default_fallback_witness :
    getDistance (fun _ _ => 0) "Atlantis" "Paris" = 3500 :=
  distance_default_fallback (fun _ _ => 0) "Atlantis" "Paris"
    (by decide) (by decide) (by decide) (Or.inl (by decide))

/-! ## Intent Extractor

Embedded from app/agents/intent_extractor_agent.py.  The regex-based
scanners are modelled directly as left-to-right matchers over the
lower-cased character list (the code compiles its patterns with re.I);
prompts are ASCII.  Greedy sub-patterns whose backtracking can never
succeed (a digit run followed by a letter literal, etc.) are modelled
without backtracking. -/

def isWordChar (c : Char) : Bool :=
  ('a' ≤ c && c ≤ 'z') || ('A' ≤ c && c ≤ 'Z') || ('0' ≤ c && c ≤ '9') || c == '_'

def isDigitChar (c : Char) : Bool := '0' ≤ c && c ≤ '9'

def isAsciiAlpha (c : Char) : Bool := ('a' ≤ c && c ≤ 'z') || ('A' ≤ c && c ≤ 'Z')

def asciiUpperChar (c : Char) : Char :=
  if 'a' ≤ c ∧ c ≤ 'z' then Char.ofNat (c.toNat - 32) else c

/-- Python str.title: the first cased character of every run is upper-cased,
the rest lower-cased. -/
def pyTitleGo (prevAlpha : Bool) : List Char → List Char
  | [] => []
  | c :: rest =>
    (if isAsciiAlpha c then (if prevAlpha then asciiLowerChar c else asciiUpperChar c) else c)
      :: pyTitleGo (isAsciiAlpha c) rest

def pyTitle (s : String) : String := ⟨pyTitleGo false s.data⟩

/-- Word boundary on the left of a match: start of text or a non-word
character before it. -/
def boundaryOK (prev : Option Char) : Bool :=
  match prev with
  | none => true
  | some c => !isWordChar c

/-- Word boundary on the right of a match: end of text or a non-word
character after it. -/
def afterOK (t : List Char) : Bool :=
  match t with
  | [] => true
  | c :: _ => !isWordChar c

/-- MAJOR_CITIES (intent_extractor_agent.py lines 22-45), enumerated in the
order of the set literal in the source.  The Python value is a set: this
list is authoritative for membership (order-irrelevant), while every place
where the iteration order matters - the hash-dependent, unspecified
tie-break among equal-length names in sorted(MAJOR_CITIES, key=len,
reverse=True) - takes the enumeration as an explicit parameter and the
theorems quantify over all permutations of this list. -/
def majorCities : List String := [
  "mumbai", "delhi", "new delhi", "bangalore", "bengaluru",
  "hyderabad", "chennai", "kolkata", "pune", "ahmedabad",
  "jaipur", "lucknow", "goa", "kochi", "thiruvananthapuram",
  "varanasi", "agra", "udaipur", "jodhpur", "shimla",
  "manali", "rishikesh", "darjeeling", "gangtok", "leh",
  "ladakh", "srinagar", "amritsar", "chandigarh", "mysore",
  "mysuru", "ooty", "munnar", "alleppey", "hampi",
  "tokyo", "paris", "london", "new york", "nyc",
  "dubai", "singapore", "bangkok", "bali", "rome",
  "barcelona", "amsterdam", "berlin", "prague", "vienna",
  "zurich", "geneva", "sydney", "melbourne", "toronto",
  "vancouver", "san francisco", "los angeles", "las vegas", "miami",
  "orlando", "seoul", "osaka", "kyoto", "hong kong",
  "shanghai", "beijing", "istanbul", "cairo", "marrakech",
  "cape town", "nairobi", "rio de janeiro", "buenos aires", "lima",
  "bogota", "mexico city", "kuala lumpur", "hanoi", "ho chi minh",
  "phnom penh", "siem reap", "kathmandu", "colombo", "dhaka",
  "thimphu", "lisbon", "madrid", "athens", "santorini",
  "florence", "venice", "milan", "munich", "stockholm",
  "copenhagen", "oslo", "helsinki", "reykjavik", "dublin",
  "edinburgh", "brussels", "budapest", "phuket", "chiang mai",
  "maldives", "mauritius", "seychelles", "zanzibar", "petra",
  "abu dhabi", "doha", "muscat"
]

/-- Does the word-boundary-delimited pattern match at the head of t, where
prev is the character just before t in the full text? -/
def matchesAt (pat : List Char) (prev : Option Char) (t : List Char) : Bool :=
  pat.isPrefixOf t && boundaryOK prev && afterOK (t.drop pat.length)

/-- re.sub of a word-bounded city name by the empty string, also reporting
whether any occurrence was found (re.search): scans left to right,
non-overlapping, boundaries judged against the original text.  Fuelled by
the text length; the fuel cannot run out for the non-empty patterns of the
city table since every step consumes at least one character. -/
def removeAllGo (pat : List Char) : ℕ → Option Char → List Char → Bool × List Char
  | 0, _, t => (false, t)
  | Nat.succ fuel, prev, t =>
    match t with
    | [] => (false, [])
    | c :: rest =>
      if matchesAt pat prev (c :: rest) then
        let r := removeAllGo pat fuel (some (pat.getLastD c)) ((c :: rest).drop pat.length)
        (true, r.2)
      else
        let r := removeAllGo pat fuel (some c) rest
        (r.1, c :: r.2)

def removeAll (pat : List Char) (t : List Char) : Bool × List Char :=
  removeAllGo pat (t.length + 1) none t

/-- Stable insertion keeping the list sorted by descending length: the
element goes after all existing elements of at least its length, mirroring
the stability of Python sorted(key=len, reverse=True). -/
def insertLenDesc (x : String) : List String → List String
  | [] => [x]
  | y :: ys => if y.length < x.length then x :: y :: ys else y :: insertLenDesc x ys

def sortLenDesc (l : List String) : List String :=
  l.foldl (fun acc x => insertLenDesc x acc) []

/-- _extract_cities scan: longest names first, every match appended in scan
order (title-cased) and removed from the working text before the next name
is tried. -/
def extractCitiesGo : List String → List Char → List String
  | [], _ => []
  | city :: rest, t =>
    let r := removeAll city.data t
    if r.1 then pyTitle city :: extractCitiesGo rest r.2
    else extractCitiesGo rest t

/-- The city scan with an explicit enumeration order of the city set:
Python's sorted is stable, so the scan order is the length-descending
stable sort of whatever iteration order the set produced. -/
def extractCitiesOrd (cities : List String) (text : String) : List String :=
  extractCitiesGo (sortLenDesc cities) (pyLower text).data

def extractCities (text : String) : List String :=
  extractCitiesOrd majorCities text

def natOfDigits (cs : List Char) : ℕ :=
  cs.foldl (fun acc c => acc * 10 + (c.toNat - 48)) 0

/-- firstSome f l: the first some produced by f along l. -/
def firstSome {α β : Type} (f : α → Option β) : List α → Option β
  | [] => none
  | a :: rest =>
    match f a with
    | some b => some b
    | none => firstSome f rest

/-- Terminator \s+word\b of the origin patterns. -/
def termWord (w : List Char) (t : List Char) : Bool :=
  match t with
  | [] => false
  | c :: _ =>
    isAsciiSpace c
      && (let t' := t.dropWhile isAsciiSpace
          w.isPrefixOf t' && afterOK (t'.drop w.length))

/-- Terminator \s*c for a punctuation character. -/
def termPunct (p : Char) (t : List Char) : Bool :=
  match t.dropWhile isAsciiSpace with
  | [] => false
  | c :: _ => c == p

/-- Terminator \s*$ (whitespace to the end). -/
def termEnd (t : List Char) : Bool :=
  t.dropWhile isAsciiSpace = []

/-- One length of the lazy capture (\w[\w\s]{2,20}?): n window characters of
word-or-space class followed by the terminator. -/
def tryCapLen (c0 : Char) (restCap : List Char) (term : List Char → Bool) (n : ℕ) :
    Option (List Char) :=
  let w := restCap.take n
  if w.length = n && w.all (fun c => isWordChar c || isAsciiSpace c)
      && term (restCap.drop n) then
    some (c0 :: w)
  else none

/-- The capture part of the origin patterns, applied just after the keyword:
\s+(\w[\w\s]{2,20}?) followed by the pattern's terminator group, lazy, so
the shortest window wins. -/
def originCapture (term : List Char → Bool) (t : List Char) : Option (List Char) :=
  match t with
  | [] => none
  | c :: _ =>
    if !isAsciiSpace c then none
    else
      match t.dropWhile isAsciiSpace with
      | [] => none
      | c0 :: restCap =>
        if !isWordChar c0 then none
        else firstSome (tryCapLen c0 restCap term) ((List.range 19).map (fun i => i + 2))

def originKeywords : List (List Char) :=
  ["from".data, "departing".data, "leaving".data, "starting".data]

/-- Leftmost match of one origin pattern (keyword alternation followed by
capture and terminator). -/
def scanOrigin (term : List Char → Bool) : List Char → Option (List Char)
  | [] => none
  | c :: rest =>
    match firstSome
        (fun kw => if kw.isPrefixOf (c :: rest)
          then originCapture term ((c :: rest).drop kw.length) else none)
        originKeywords with
    | some cap => some cap
    | none => scanOrigin term rest

/-- One pattern attempt of _extract_origin: candidate = group(1).strip()
.title(), accepted only when the lower-cased candidate is a known city. -/
def originTry (term : List Char → Bool) (tl : List Char) : Option String :=
  match scanOrigin term tl with
  | some cap =>
    let candidate := pyTitle (pyStrip (String.mk cap))
    if majorCities.contains (pyLower candidate) then some candidate else none
  | none => none

def originTerm1 (t : List Char) : Bool :=
  termWord "to".data t || termPunct ',' t || termPunct '.' t || termWord "in".data t

def originTerm2 (t : List Char) : Bool :=
  termWord "with".data t || termWord "for".data t || termWord "on".data t || termEnd t

def originTerm3 (t : List Char) : Bool :=
  termWord "budget".data t || termWord "around".data t

/-- _extract_origin (lines 278-292): the three patterns in order; a match
whose candidate is not a known city falls through to the next pattern. -/
def extractOrigin (text : String) : Option String :=
  let tl := (pyLower text).data
  match originTry originTerm1 tl with
  | some c => some c
  | none =>
    match originTry originTerm2 tl with
    | some c => some c
    | none => originTry originTerm3 tl

/-- Leftmost (\d+)\s*(stem...) match: at each digit, the greedy digit run,
optional whitespace, then one of the suffix stems; a failed start moves one
character to the right, which cannot change the digit-run suffix, exactly as
regex backtracking cannot. -/
def scanNumThen (stems : List (List Char)) : List Char → Option ℕ
  | [] => none
  | c :: rest =>
    if isDigitChar c then
      (let digits := (c :: rest).takeWhile isDigitChar
       let after := ((c :: rest).dropWhile isDigitChar).dropWhile isAsciiSpace
       if stems.any (fun st => st.isPrefixOf after) then some (natOfDigits digits)
       else scanNumThen stems rest)
    else scanNumThen stems rest

/-- Word-bounded single-word search \bw\b, with optional plural s when optS
is set (\bws?\b). -/
def scanWord (w : List Char) (optS : Bool) : Option Char → List Char → Bool
  | _, [] => false
  | prev, c :: rest =>
    (boundaryOK prev && w.isPrefixOf (c :: rest)
      && (let t3 := (c :: rest).drop w.length
          afterOK t3
            || (optS && (match t3 with
                | 's' :: t4 => afterOK t4
                | _ => false))))
      || scanWord w optS (some c) rest

/-- Word-bounded two-word phrase search \bw1\s+w2s?\b. -/
def scanPhrase (w1 w2 : List Char) (optS : Bool) : Option Char → List Char → Bool
  | _, [] => false
  | prev, c :: rest =>
    (boundaryOK prev && w1.isPrefixOf (c :: rest)
      && (match (c :: rest).drop w1.length with
          | [] => false
          | c1 :: t1 =>
            isAsciiSpace c1
              && (let t2 := (c1 :: t1).dropWhile isAsciiSpace
                  w2.isPrefixOf t2
                    && (let t3 := t2.drop w2.length
                        afterOK t3
                          || (optS && (match t3 with
                              | 's' :: t4 => afterOK t4
                              | _ => false))))))
      || scanPhrase w1 w2 optS (some c) rest

/-- _extract_duration (lines 166-184). -/
def extractDuration (tl : List Char) : ℕ :=
  match scanNumThen ["day".data, "night".data] tl with
  | some n => n
  | none =>
    match scanNumThen ["week".data] tl with
    | some n => n * 7
    | none =>
      if scanPhrase "a".data "week".data false none tl then 7
      else if scanPhrase "two".data "week".data true none tl then 14
      else if scanPhrase "three".data "week".data true none tl then 21
      else if scanPhrase "long".data "weekend".data false none tl then 4
      else if scanWord "weekend".data false none tl then 3
      else 5

/-- _extract_travelers (lines 263-275). -/
def extractTravelers (tl : List Char) : ℕ :=
  match scanNumThen ["people".data, "person".data, "traveler".data, "traveller".data,
      "friend".data, "adult".data, "pax".data] tl with
  | some n => n
  | none =>
    if scanWord "couple".data false none tl then 2
    else if scanWord "solo".data false none tl then 1
    else if scanWord "family".data false none tl then 4
    else if scanWord "group".data false none tl then 6
    else 1

/-- Python float() of a regex number group after removing commas: optional
integer digits, optional dot with at least one fraction digit; None when no
digits remain. -/
def parseDecimal (cs : List Char) : Option ℚ :=
  if cs = [] then none
  else
    let ip := cs.takeWhile isDigitChar
    match cs.dropWhile isDigitChar with
    | [] => if ip = [] then none else some ((natOfDigits ip : ℕ) : ℚ)
    | '.' :: frac =>
      if frac ≠ [] && frac.all isDigitChar then
        some (((natOfDigits ip : ℕ) : ℚ)
          + ((natOfDigits frac : ℕ) : ℚ) / ((10 ^ frac.length : ℕ) : ℚ))
      else none
    | _ => none

/-- _safe_float: the groups matched by the budget patterns never contain
whitespace, so stripping reduces to removing commas. -/
def safeFloat (g : List Char) : Option ℚ :=
  parseDecimal (g.filter (fun c => c ≠ ','))

/-- The currency alternation ₹|rs\.?|inr (no word boundary), returning the
matched length. -/
def currencyPrefix (t : List Char) : Option ℕ :=
  if "₹".data.isPrefixOf t then some 1
  else if "rs.".data.isPrefixOf t then some 3
  else if "rs".data.isPrefixOf t then some 2
  else if "inr".data.isPrefixOf t then some 3
  else none

/-- The number group [\d,]+(?:\.\d+)? at the head of t, greedy, returning
the group and the rest of the text. -/
def numGroupAt (t : List Char) : Option (List Char × List Char) :=
  let g1 := t.takeWhile (fun c => isDigitChar c || c == ',')
  if g1 = [] then none
  else
    match t.drop g1.length with
    | '.' :: t3 =>
      (let fr := t3.takeWhile isDigitChar
       if fr = [] then some (g1, '.' :: t3)
       else some (g1 ++ '.' :: fr, t3.drop fr.length))
    | t2 => some (g1, t2)

/-- The trailing \s*(?:lakh|lac|l)? of the INR pattern: whether a multiplier
suffix was matched (which is exactly when re.search('lakh|lac|l\b') succeeds
on the matched text) and the position after the match. -/
def inrSuffix (t : List Char) : Bool × List Char :=
  let t1 := t.dropWhile isAsciiSpace
  if "lakh".data.isPrefixOf t1 then (true, t1.drop 4)
  else if "lac".data.isPrefixOf t1 then (true, t1.drop 3)
  else if "l".data.isPrefixOf t1 then (true, t1.drop 1)
  else (false, t1)

/-- re.finditer over the INR pattern: all non-overlapping matches, left to
right, as (number group, lakh-multiplier) pairs.  Fuelled by the text
length; every match consumes at least one character. -/
def scanINRGo : ℕ → List Char → List (List Char × Bool)
  | 0, _ => []
  | Nat.succ fuel, t =>
    match t with
    | [] => []
    | c :: rest =>
      match currencyPrefix (c :: rest) with
      | some k =>
        (match numGroupAt (((c :: rest).drop k).dropWhile isAsciiSpace) with
         | some (g, after) =>
           (let s := inrSuffix after
            (g, s.1) :: scanINRGo fuel s.2)
         | none => scanINRGo fuel rest)
      | none => scanINRGo fuel rest

def scanINR (t : List Char) : List (List Char × Bool) := scanINRGo (t.length + 1) t

/-- First match of ([\d,]+(?:\.\d+)?)\s*(?:k)\b (the bare-k shorthand),
returning the number group. -/
def scanKGroup : List Char → Option (List Char)
  | [] => none
  | c :: rest =>
    (if isDigitChar c || c == ',' then
      match numGroupAt (c :: rest) with
      | some (g, after) =>
        (match after.dropWhile isAsciiSpace with
         | 'k' :: a2 => if afterOK a2 then some g else scanKGroup rest
         | _ => scanKGroup rest)
      | none => scanKGroup rest
    else scanKGroup rest)

/-- First match of ([\d,]+)\s*(?:lakh|lac), returning the number group. -/
def scanLakhGroup : List Char → Option (List Char)
  | [] => none
  | c :: rest =>
    (if isDigitChar c || c == ',' then
      (let g := (c :: rest).takeWhile (fun c => isDigitChar c || c == ',')
       let a1 := ((c :: rest).drop g.length).dropWhile isAsciiSpace
       if "lakh".data.isPrefixOf a1 || "lac".data.isPrefixOf a1 then some g
       else scanLakhGroup rest)
    else scanLakhGroup rest)

/-- Optional word followed by mandatory whitespace, (?:w\s+)?: consumed
only when both parts are present. -/
def optWordWs (w : List Char) (t : List Char) : List Char :=
  if w.isPrefixOf t then
    match t.drop w.length with
    | c :: cr => if isAsciiSpace c then (c :: cr).dropWhile isAsciiSpace else t
    | [] => t
  else t

/-- First match of budget\s+(?:of\s+)?(?:around\s+)?(?:₹|rs\.?|inr)?\s*([\d,]+),
returning the number group. -/
def scanBudgetOf : List Char → Option (List Char)
  | [] => none
  | c :: rest =>
    (if "budget".data.isPrefixOf (c :: rest) then
      (match (c :: rest).drop 6 with
       | [] => scanBudgetOf rest
       | c1 :: t1 =>
         if isAsciiSpace c1 then
           (let t2 := (c1 :: t1).dropWhile isAsciiSpace
            let t3 := optWordWs "of".data t2
            let t4 := optWordWs "around".data t3
            let t5 := match currencyPrefix t4 with
              | some k => t4.drop k
              | none => t4
            let g := (t5.dropWhile isAsciiSpace).takeWhile (fun c => isDigitChar c || c == ',')
            if g = [] then scanBudgetOf rest else some g)
         else scanBudgetOf rest)
    else scanBudgetOf rest)

/-- First match of the range pattern
([\d,]+)\s*(?:k)?\s*(?:-|to|and)\s*([\d,]+)\s*(?:k)?, returning the two
number groups. -/
def scanRange : List Char → Option (List Char × List Char)
  | [] => none
  | c :: rest =>
    (if isDigitChar c || c == ',' then
      (let g1 := (c :: rest).takeWhile (fun c => isDigitChar c || c == ',')
       let t1 := ((c :: rest).drop g1.length).dropWhile isAsciiSpace
       let t2 := match t1 with
         | 'k' :: tr => tr.dropWhile isAsciiSpace
         | _ => t1
       let sep : Option (List Char) :=
         match t2 with
         | '-' :: tr => some tr
         | _ =>
           if "to".data.isPrefixOf t2 then some (t2.drop 2)
           else if "and".data.isPrefixOf t2 then some (t2.drop 3)
           else none
       match sep with
       | some t3 =>
         (let g2 := (t3.dropWhile isAsciiSpace).takeWhile (fun c => isDigitChar c || c == ',')
          if g2 = [] then scanRange rest else some (g1, g2))
       | none => scanRange rest)
    else scanRange rest)

/-- The INR finditer loop (lines 215-221): each match with a parseable
group overwrites the budget, applying the lakh multiplier. -/
def budgetFromINR (tl : List Char) : Option ℚ :=
  (scanINR tl).foldl
    (fun acc gm =>
      match safeFloat gm.1 with
      | none => acc
      | some v => some (if gm.2 then v * 100000 else v))
    none

/-- The bare-k branch (lines 223-228), tried only when no INR match won. -/
def budgetStageK (tl : List Char) (b : Option ℚ) : Option ℚ :=
  match b with
  | some _ => b
  | none =>
    match scanKGroup tl with
    | some g => (safeFloat g).map (fun v => v * 1000)
    | none => none

/-- The bare-lakh branch (lines 230-235). -/
def budgetStageLakh (tl : List Char) (b : Option ℚ) : Option ℚ :=
  match b with
  | some _ => b
  | none =>
    match scanLakhGroup tl with
    | some g => (safeFloat g).map (fun v => v * 100000)
    | none => none

/-- The generic budget-of branch (lines 237-244), with the below-500
times-1000 heuristic. -/
def budgetStageOf (tl : List Char) (b : Option ℚ) : Option ℚ :=
  match b with
  | some _ => b
  | none =>
    match scanBudgetOf tl with
    | some g => (safeFloat g).map (fun v => if v < 500 then v * 1000 else v)
    | none => none

/-- The range pattern (lines 246-258): always searched; when both groups
parse it fills the range (with the same below-500 heuristic) and supplies
the point budget only if none was found before. -/
def budgetStageRange (tl : List Char) (b : Option ℚ) :
    Option ℚ × (Option ℚ × Option ℚ) :=
  match scanRange tl with
  | some gg =>
    (match safeFloat gg.1, safeFloat gg.2 with
     | some lo, some hi =>
       (let lo' := if lo < 500 then lo * 1000 else lo
        let hi' := if hi < 500 then hi * 1000 else hi
        (match b with
         | some _ => (b, (some lo', some hi'))
         | none => (some hi', (some lo', some hi'))))
     | _, _ => (b, (none, none)))
  | none => (b, (none, none))

/-- _extract_budget (lines 200-260). -/
def extractBudget (tl : List Char) : Option ℚ × (Option ℚ × Option ℚ) :=
  budgetStageRange tl
    (budgetStageOf tl (budgetStageLakh tl (budgetStageK tl (budgetFromINR tl))))

structure IntentOut where
  origin : Option String
  destinations : List String
  durationDays : ℕ
  budgetTotal : Option ℚ
  budgetMin : Option ℚ
  budgetMax : Option ℚ
  travelerCount : ℕ

/-- The no-destination fallback text, re.sub(r'[^\w\s]', '', prompt).strip()
(line 344), applied to the original-case prompt. -/
def cleanedPrompt (s : String) : String :=
  pyStrip ⟨s.data.filter (fun c => isWordChar c || isAsciiSpace c)⟩

/-- Lines 341-346: when no city was recognized, the whole cleaned prompt
becomes one pseudo-destination. -/
def destsAfterFallback (prompt : String) (dests0 : List String) : List String :=
  if dests0 = [] then
    (let cleaned := cleanedPrompt prompt
     if cleaned.data = [] then [] else [pyTitle cleaned])
  else dests0

/-- Lines 348-350: the origin, when found, is removed from the
destinations. -/
def destsAfterOrigin (origin : Option String) (dests1 : List String) : List String :=
  match origin with
  | some o => dests1.filter (fun d => pyLower d ≠ pyLower o)
  | none => dests1

/-- IntentExtractorAgent.run (lines 324-367) for the fields the claims
concern - city scan, origin, duration, budget and travelers, then in this
order the pseudo-destination fallback and the origin removal - with the
city-set enumeration order as an explicit parameter. -/
def extractIntentOrd (cities : List String) (prompt : String) : IntentOut :=
  let budget := extractBudget ((pyLower prompt).data)
  { origin := extractOrigin prompt,
    destinations := destsAfterOrigin (extractOrigin prompt)
      (destsAfterFallback prompt (extractCitiesOrd cities prompt)),
    durationDays := extractDuration ((pyLower prompt).data),
    budgetTotal := budget.1, budgetMin := budget.2.1, budgetMax := budget.2.2,
    travelerCount := extractTravelers ((pyLower prompt).data) }

def extractIntent (prompt : String) : IntentOut :=
  extractIntentOrd majorCities prompt

/-- The example prompt of the C8 claim. -/
def c8prompt : String :=
  "10 day trip to Tokyo and Kyoto from Delhi with a budget of 150k for 2 people"

theorem c8_scanINR : scanINR ((pyLower c8prompt).data) = [] := by decide

theorem c8_scanK :
    scanKGroup ((pyLower c8prompt).data) = some ('1' :: '5' :: '0' :: []) := by decide

theorem c8_scanRange : scanRange ((pyLower c8prompt).data) = none := by decide

theorem c8_safeFloat :
    safeFloat ('1' :: '5' :: '0' :: []) = some ((150 : ℕ) : ℚ) := rfl

def c8low : List Char := (pyLower c8prompt).data

def remCity (city : String) (t : List Char) : List Char :=
  (removeAll city.data t).2

/-- The working text of the city scan on the C8 prompt as a function of
which of delhi, tokyo and kyoto - the only members of the city set that
occur in the prompt - have already been matched and removed.  The scan
order of these three equal-length names follows the set's unspecified
iteration order, so every flag combination is a reachable state. -/
def st (hd ht hk : Bool) : List Char :=
  (if hk then remCity "kyoto" else id)
    ((if ht then remCity "tokyo" else id)
      ((if hd then remCity "delhi" else id) c8low))

set_option maxHeartbeats 1600000 in
theorem st_delhi (ht hk : Bool) :
    removeAll "delhi".data (st false ht hk) = (true, st true ht hk) := by
  cases ht <;> cases hk <;> decide

set_option maxHeartbeats 1600000 in
theorem st_tokyo (hd hk : Bool) :
    removeAll "tokyo".data (st hd false hk) = (true, st hd true hk) := by
  cases hd <;> cases hk <;> decide

set_option maxHeartbeats 1600000 in
theorem st_kyoto (hd ht : Bool) :
    removeAll "kyoto".data (st hd ht false) = (true, st hd ht true) := by
  cases hd <;> cases ht <;> decide

set_option maxRecDepth 16384 in
set_option maxHeartbeats 4000000 in
theorem st_other (hd ht hk : Bool) :
    ∀ c ∈ majorCities, c = "delhi" ∨ c = "tokyo" ∨ c = "kyoto"
      ∨ (removeAll c.data (st hd ht hk)).1 = false := by
  cases hd <;> cases ht <;> cases hk <;> decide

theorem extractCitiesGo_cons_hit (city : String) (rest : List String)
    (t t2 : List Char) (h : removeAll city.data t = (true, t2)) :
    extractCitiesGo (city :: rest) t
      = pyTitle city :: extractCitiesGo rest t2 := by
  show (if (removeAll city.data t).1 then
      pyTitle city :: extractCitiesGo rest (removeAll city.data t).2
    else extractCitiesGo rest t) = pyTitle city :: extractCitiesGo rest t2
  rw [h]
  rfl

theorem extractCitiesGo_cons_miss (city : String) (rest : List String)
    (t : List Char) (h : (removeAll city.data t).1 = false) :
    extractCitiesGo (city :: rest) t = extractCitiesGo rest t := by
  show (if (removeAll city.data t).1 then
      pyTitle city :: extractCitiesGo rest (removeAll city.data t).2
    else extractCitiesGo rest t) = extractCitiesGo rest t
  rw [h]
  rfl

/-- What the scan contributes for each city name in a given state: Delhi,
Tokyo and Kyoto when not yet consumed, nothing otherwise. -/
def c8hit (hd ht hk : Bool) (c : String) : Option String :=
  if c = "delhi" ∧ hd = false then some "Delhi"
  else if c = "tokyo" ∧ ht = false then some "Tokyo"
  else if c = "kyoto" ∧ hk = false then some "Kyoto"
  else none

theorem c8hit_delhi (ht hk : Bool) : c8hit false ht hk "delhi" = some "Delhi" := rfl

theorem c8hit_tokyo (hd hk : Bool) : c8hit hd false hk "tokyo" = some "Tokyo" := rfl

theorem c8hit_kyoto (hd ht : Bool) : c8hit hd ht false "kyoto" = some "Kyoto" := rfl

theorem c8hit_none (hd ht hk : Bool) (c : String) (h1 : c ≠ "delhi")
    (h2 : c ≠ "tokyo") (h3 : c ≠ "kyoto") : c8hit hd ht hk c = none := by
  unfold c8hit
  have n1 : ¬(c = "delhi" ∧ hd = false) := fun hx => h1 hx.1
  have n2 : ¬(c = "tokyo" ∧ ht = false) := fun hx => h2 hx.1
  have n3 : ¬(c = "kyoto" ∧ hk = false) := fun hx => h3 hx.1
  rw [if_neg n1, if_neg n2, if_neg n3]

theorem c8hit_flag_delhi (ht hk : Bool) (x : String) (hx : x ≠ "delhi") :
    c8hit true ht hk x = c8hit false ht hk x := by
  unfold c8hit
  have n1 : ¬(x = "delhi" ∧ true = false) := fun hc => hx hc.1
  have n2 : ¬(x = "delhi" ∧ false = false) := fun hc => hx hc.1
  rw [if_neg n1, if_neg n2]

theorem c8hit_flag_tokyo (hd hk : Bool) (x : String) (hx : x ≠ "tokyo") :
    c8hit hd true hk x = c8hit hd false hk x := by
  unfold c8hit
  have n1 : ¬(x = "tokyo" ∧ true = false) := fun hc => hx hc.1
  have n2 : ¬(x = "tokyo" ∧ false = false) := fun hc => hx hc.1
  by_cases hxd : x = "delhi" ∧ hd = false
  · rw [if_pos hxd, if_pos hxd]
  · rw [if_neg hxd, if_neg hxd, if_neg n1, if_neg n2]

theorem c8hit_flag_kyoto (hd ht : Bool) (x : String) (hx : x ≠ "kyoto") :
    c8hit hd ht true x = c8hit hd ht false x := by
  unfold c8hit
  have n1 : ¬(x = "kyoto" ∧ true = false) := fun hc => hx hc.1
  have n2 : ¬(x = "kyoto" ∧ false = false) := fun hc => hx hc.1
  by_cases hxd : x = "delhi" ∧ hd = false
  · rw [if_pos hxd, if_pos hxd]
  · rw [if_neg hxd, if_neg hxd]
    by_cases hxt : x = "tokyo" ∧ ht = false
    · rw [if_pos hxt, if_pos hxt]
    · rw [if_neg hxt, if_neg hxt, if_neg n1, if_neg n2]

/-- The scan over any duplicate-free batch of set members, started in any
reachable state whose consumed cities do not reappear in the batch,
collects exactly the per-city contributions in batch order. -/
theorem extractCitiesGo_st (rest : List String) : ∀ hd ht hk : Bool,
    (∀ c ∈ rest, c ∈ majorCities) → rest.Nodup →
    (hd = true → "delhi" ∉ rest) → (ht = true → "tokyo" ∉ rest) →
    (hk = true → "kyoto" ∉ rest) →
    extractCitiesGo rest (st hd ht hk) = rest.filterMap (c8hit hd ht hk) := by
  induction rest with
  | nil => intro hd ht hk _ _ _ _ _; rfl
  | cons c rest ih =>
    intro hd ht hk hsub hnd hhd hht hhk
    have hcin : c ∈ majorCities := hsub c (List.mem_cons_self c rest)
    have hsub2 : ∀ x ∈ rest, x ∈ majorCities :=
      fun x hx => hsub x (List.mem_cons_of_mem c hx)
    have hnd2 : rest.Nodup := (List.nodup_cons.mp hnd).2
    have hcnot : c ∉ rest := (List.nodup_cons.mp hnd).1
    by_cases hcd : c = "delhi"
    · subst hcd
      cases hd with
      | true => exact absurd (List.mem_cons_self _ _) (hhd rfl)
      | false =>
        rw [extractCitiesGo_cons_hit "delhi" rest (st false ht hk) (st true ht hk)
            (st_delhi ht hk),
          List.filterMap_cons_some (c8hit_delhi ht hk),
          ih true ht hk hsub2 hnd2 (fun _ => hcnot)
            (fun hx hm => hht hx (List.mem_cons_of_mem _ hm))
            (fun hx hm => hhk hx (List.mem_cons_of_mem _ hm))]
        have hpt : pyTitle "delhi" = "Delhi" := by decide
        rw [hpt, List.filterMap_congr
          (fun x hx => c8hit_flag_delhi ht hk x (fun hc => hcnot (hc ▸ hx)))]
    · by_cases hct : c = "tokyo"
      · subst hct
        cases ht with
        | true => exact absurd (List.mem_cons_self _ _) (hht rfl)
        | false =>
          rw [extractCitiesGo_cons_hit "tokyo" rest (st hd false hk) (st hd true hk)
              (st_tokyo hd hk),
            List.filterMap_cons_some (c8hit_tokyo hd hk),
            ih hd true hk hsub2 hnd2
              (fun hx hm => hhd hx (List.mem_cons_of_mem _ hm))
              (fun _ => hcnot)
              (fun hx hm => hhk hx (List.mem_cons_of_mem _ hm))]
          have hpt : pyTitle "tokyo" = "Tokyo" := by decide
          rw [hpt, List.filterMap_congr
            (fun x hx => c8hit_flag_tokyo hd hk x (fun hc => hcnot (hc ▸ hx)))]
      · by_cases hck : c = "kyoto"
        · subst hck
          cases hk with
          | true => exact absurd (List.mem_cons_self _ _) (hhk rfl)
          | false =>
            rw [extractCitiesGo_cons_hit "kyoto" rest (st hd ht false) (st hd ht true)
                (st_kyoto hd ht),
              List.filterMap_cons_some (c8hit_kyoto hd ht),
              ih hd ht true hsub2 hnd2
                (fun hx hm => hhd hx (List.mem_cons_of_mem _ hm))
                (fun hx hm => hht hx (List.mem_cons_of_mem _ hm))
                (fun _ => hcnot)]
            have hpt : pyTitle "kyoto" = "Kyoto" := by decide
            rw [hpt, List.filterMap_congr
              (fun x hx => c8hit_flag_kyoto hd ht x (fun hc => hcnot (hc ▸ hx)))]
        · rcases st_other hd ht hk c hcin with hc | hc | hc | hc
          · exact absurd hc hcd
          · exact absurd hc hct
          · exact absurd hc hck
          · rw [extractCitiesGo_cons_miss c rest (st hd ht hk) hc,
              List.filterMap_cons_none (c8hit_none hd ht hk c hcd hct hck),
              ih hd ht hk hsub2 hnd2
                (fun hx hm => hhd hx (List.mem_cons_of_mem _ hm))
                (fun hx hm => hht hx (List.mem_cons_of_mem _ hm))
                (fun hx hm => hhk hx (List.mem_cons_of_mem _ hm))]

theorem insertLenDesc_perm (x : String) (l : List String) :
    (insertLenDesc x l).Perm (x :: l) := by
  induction l with
  | nil => exact List.Perm.refl _
  | cons y ys ih =>
    show (if y.length < x.length then x :: y :: ys
        else y :: insertLenDesc x ys).Perm (x :: y :: ys)
    by_cases hl : y.length < x.length
    · rw [if_pos hl]
    · rw [if_neg hl]
      exact (ih.cons y).trans (List.Perm.swap x y ys)

theorem foldl_insert_perm (l : List String) : ∀ acc : List String,
    (l.foldl (fun acc x => insertLenDesc x acc) acc).Perm (acc ++ l) := by
  induction l with
  | nil =>
    intro acc
    show acc.Perm (acc ++ [])
    rw [List.append_nil]
  | cons x xs ih =>
    intro acc
    show (xs.foldl (fun acc x => insertLenDesc x acc) (insertLenDesc x acc)).Perm
      (acc ++ x :: xs)
    exact ((ih (insertLenDesc x acc)).trans
      ((insertLenDesc_perm x acc).append_right xs)).trans List.perm_middle.symm

theorem sortLenDesc_perm (l : List String) : (sortLenDesc l).Perm l :=
  foldl_insert_perm l []

theorem perm_pair_str {l : List String} {a b : String} (h : l.Perm [a, b]) :
    l = [a, b] ∨ l = [b, a] := by
  have hlen : l.length = 2 := h.length_eq
  cases l with
  | nil => simp at hlen
  | cons x l1 =>
    cases l1 with
    | nil => simp at hlen
    | cons y l2 =>
      cases l2 with
      | cons z l3 =>
        exfalso
        rw [List.length_cons, List.length_cons, List.length_cons] at hlen
        omega
      | nil =>
        have hx : x = a ∨ x = b := by
          have hm := h.mem_iff.mp (List.mem_cons_self x [y])
          simpa using hm
        rcases hx with rfl | rfl
        · left
          have h2 : [y].Perm [b] := (List.perm_cons x).mp h
          have hyb := List.perm_singleton.mp h2
          injection hyb with hy _
          rw [hy]
        · right
          have h3 : (x :: y :: ([] : List String)).Perm (x :: a :: []) :=
            h.trans (List.Perm.swap x a [])
          have h2 : [y].Perm [a] := (List.perm_cons x).mp h3
          have hya := List.perm_singleton.mp h2
          injection hya with hy _
          rw [hy]

/-- C8: on the prompt "10 day trip to Tokyo and Kyoto from Delhi with a
budget of 150k for 2 people" the Intent Extractor returns origin Delhi,
destinations Tokyo and Kyoto, 10 days, a total budget of 150000 (the bare-k
branch, 150*1000) and 2 travelers - for every enumeration order of the city
set, since Python's set iteration order is unspecified.  The origin, the
duration, the budget and the traveler count are order-independent; the two
destinations always come out as exactly Tokyo and Kyoto, but their relative
order follows the enumeration, so it is [Tokyo, Kyoto] or [Kyoto, Tokyo]. -/
theorem intent_example_extraction_ordered (order : List String)
    (hperm : order.Perm majorCities) :
    (extractIntentOrd order c8prompt).origin = some "Delhi"
    ∧ ((extractIntentOrd order c8prompt).destinations = ["Tokyo", "Kyoto"]
        ∨ (extractIntentOrd order c8prompt).destinations = ["Kyoto", "Tokyo"])
    ∧ (extractIntentOrd order c8prompt).durationDays = 10
    ∧ (extractIntentOrd order c8prompt).budgetTotal = some 150000
    ∧ (extractIntentOrd order c8prompt).travelerCount = 2 := by
  have hperm1 : (sortLenDesc order).Perm majorCities :=
    (sortLenDesc_perm order).trans hperm
  have hnd : (sortLenDesc order).Nodup :=
    (List.Perm.nodup_iff hperm1).mpr (by decide)
  have hsub : ∀ c ∈ sortLenDesc order, c ∈ majorCities :=
    fun c hc => hperm1.mem_iff.mp hc
  have hscan : extractCitiesOrd order c8prompt
      = (sortLenDesc order).filterMap (c8hit false false false) := by
    show extractCitiesGo (sortLenDesc order) (st false false false) = _
    exact extractCitiesGo_st (sortLenDesc order) false false false hsub hnd
      (fun hx => absurd hx (by decide)) (fun hx => absurd hx (by decide))
      (fun hx => absurd hx (by decide))
  have hfm : ((sortLenDesc order).filterMap (c8hit false false false)).Perm
      (majorCities.filterMap (c8hit false false false)) :=
    hperm1.filterMap (c8hit false false false)
  have hval : majorCities.filterMap (c8hit false false false)
      = ["Delhi", "Tokyo", "Kyoto"] := by decide
  have hfm2 : ((sortLenDesc order).filterMap (c8hit false false false)).Perm
      ["Delhi", "Tokyo", "Kyoto"] := hval ▸ hfm
  have hne : extractCitiesOrd order c8prompt ≠ [] := by
    rw [hscan]
    intro hnil
    have hlen := hfm2.length_eq
    rw [hnil] at hlen
    exact absurd hlen (by decide)
  have hfb : destsAfterFallback c8prompt (extractCitiesOrd order c8prompt)
      = extractCitiesOrd order c8prompt := by
    unfold destsAfterFallback
    rw [if_neg hne]
  have horig : extractOrigin c8prompt = some "Delhi" := by decide
  have hdest : (extractIntentOrd order c8prompt).destinations
      = ((sortLenDesc order).filterMap (c8hit false false false)).filter
          (fun d => pyLower d ≠ pyLower "Delhi") := by
    show destsAfterOrigin (extractOrigin c8prompt)
        (destsAfterFallback c8prompt (extractCitiesOrd order c8prompt)) = _
    rw [hfb, hscan, horig]
    rfl
  have hfil : (((sortLenDesc order).filterMap (c8hit false false false)).filter
        (fun d => pyLower d ≠ pyLower "Delhi")).Perm
      (["Delhi", "Tokyo", "Kyoto"].filter (fun d => pyLower d ≠ pyLower "Delhi")) :=
    hfm2.filter _
  have hfil2 : ["Delhi", "Tokyo", "Kyoto"].filter
      (fun d => pyLower d ≠ pyLower "Delhi") = ["Tokyo", "Kyoto"] := by decide
  have hpair := perm_pair_str (hfil2 ▸ hfil)
  refine ⟨?_, ?_, ?_, ?_, ?_⟩
  · show extractOrigin c8prompt = some "Delhi"
    exact horig
  · rw [hdest]
    exact hpair
  · show extractDuration ((pyLower c8prompt).data) = 10
    decide
  · have e1 : budgetFromINR ((pyLower c8prompt).data) = none := by
      unfold budgetFromINR
      rw [c8_scanINR]
      rfl
    have e2 : budgetStageK ((pyLower c8prompt).data) none
        = some (((150 : ℕ) : ℚ) * 1000) := by
      unfold budgetStageK
      rw [c8_scanK]
      show Option.map (fun v => v * 1000) (safeFloat ('1' :: '5' :: '0' :: [])) = _
      rw [c8_safeFloat]
      rfl
    have e5 : budgetStageRange ((pyLower c8prompt).data)
          (some (((150 : ℕ) : ℚ) * 1000))
        = (some (((150 : ℕ) : ℚ) * 1000), (none, none)) := by
      unfold budgetStageRange
      rw [c8_scanRange]
    have efinal : (extractIntentOrd order c8prompt).budgetTotal
        = some (((150 : ℕ) : ℚ) * 1000) := by
      show (budgetStageRange ((pyLower c8prompt).data)
          (budgetStageOf ((pyLower c8prompt).data)
            (budgetStageLakh ((pyLower c8prompt).data)
              (budgetStageK ((pyLower c8prompt).data)
                (budgetFromINR ((pyLower c8prompt).data)))))).1
        = some (((150 : ℕ) : ℚ) * 1000)
      rw [e1, e2]
      show (budgetStageRange ((pyLower c8prompt).data)
          (some (((150 : ℕ) : ℚ) * 1000))).1 = some (((150 : ℕ) : ℚ) * 1000)
      rw [e5]
    rw [efinal]
    norm_num
  · show extractTravelers ((pyLower c8prompt).data) = 2
    decide

/-- Witness for the C8 theorem at the source-literal enumeration order. -/
theorem intent_example_extraction_ordered_witness :
    majorCities.Perm majorCities
    ∧ ((extractIntentOrd majorCities c8prompt).origin = some "Delhi"
      ∧ ((extractIntentOrd majorCities c8prompt).destinations = ["Tokyo", "Kyoto"]
          ∨ (extractIntentOrd majorCities c8prompt).destinations = ["Kyoto", "Tokyo"])
      ∧ (extractIntentOrd majorCities c8prompt).durationDays = 10
      ∧ (extractIntentOrd majorCities c8prompt).budgetTotal = some 150000
      ∧ (extractIntentOrd majorCities c8prompt).travelerCount = 2) :=
  ⟨List.Perm.refl _,
    intent_example_extraction_ordered majorCities (List.Perm.refl _)⟩

/-- The source-literal order with tokyo and kyoto exchanged: another valid
enumeration of the same set. -/
def majorCitiesSwapped : List String :=
  majorCities.map
    (fun c => if c = "tokyo" then "kyoto" else if c = "kyoto" then "tokyo" else c)

set_option maxHeartbeats 1600000 in
/-- C8 counterexample to the fixed destination order: an enumeration of the
same city set under which the extractor returns [Kyoto, Tokyo], not the
claimed [Tokyo, Kyoto] - the order depends on the unspecified set iteration
order, so the claim's fixed order is not a consequence of the program. -/
theorem intent_example_order_counterexample :
    majorCitiesSwapped.Perm majorCities
    ∧ (extractIntentOrd majorCitiesSwapped c8prompt).destinations
        = ["Kyoto", "Tokyo"]
    ∧ (extractIntentOrd majorCitiesSwapped c8prompt).destinations
        ≠ ["Tokyo", "Kyoto"] := by
  refine ⟨by decide, by decide, by decide⟩

/-- The prompt of the C10 claim: its only recognized city is the origin. -/
def c10prompt : String := "trip from Delhi for 5 days"

/-- C10: there is a prompt for which the extractor returns an empty
destinations list: here the city scan finds only Delhi, the fallback is
skipped because the pre-removal list is non-empty, and the origin removal
then empties it. -/
theorem intent_origin_only_empty_destinations :
    extractCities c10prompt = ["Delhi"]
    ∧ (extractIntent c10prompt).origin = some "Delhi"
    ∧ (extractIntent c10prompt).destinations = [] := by
  refine ⟨by decide, by decide, by decide⟩
